import Mathlib

/-!
# Core orchestrator of the image optimizer (`src/c/src/core/optimizer.c`)

A shallow embedding of the orchestrator: the process-wide state `g_state`, the
lifecycle functions `optimizer_init` / `optimizer_cleanup`, the message lookup
`optimizer_error_string`, the two pipelines `optimizer_process_buffer` and
`optimizer_process_file`, and the registry accessor
`optimizer_get_supported_formats`.

The functions of libc (`fopen`, `fread`, `malloc`, `mtx_lock`, ...) and of the
device and model layers (`optimizer_gpu_*`, `optimizer_ai_*`) are only declared
in the headers.  Their outcomes are therefore inputs of the model (the `*Env`
records), and every call the orchestrator makes to them is recorded, in program
order, in a trace of `Event`s.  Pointers are `Option`s (`none` is `NULL`).
-/

set_option linter.unusedVariables false

namespace Optimizer

/-! ## Result codes, formats (`optimizer.h`, `optimizer_common.h`) -/

/-- The C enum `optimizer_error_t`, an `int`. -/
abbrev optimizer_error_t := Int

def OPTIMIZER_SUCCESS : optimizer_error_t := 0
def OPTIMIZER_ERROR_INVALID_PARAM : optimizer_error_t := -1
def OPTIMIZER_ERROR_FILE_IO : optimizer_error_t := -2
def OPTIMIZER_ERROR_MEMORY : optimizer_error_t := -3
def OPTIMIZER_ERROR_UNSUPPORTED_FORMAT : optimizer_error_t := -4
def OPTIMIZER_ERROR_GPU : optimizer_error_t := -5
def OPTIMIZER_ERROR_THREAD : optimizer_error_t := -6
/-- Reserved codes, declared in `optimizer_common.h` only. -/
def OPTIMIZER_ERROR_SYSTEM : optimizer_error_t := -7
def OPTIMIZER_ERROR_INITIALIZATION : optimizer_error_t := -8
def OPTIMIZER_ERROR_NOT_IMPLEMENTED : optimizer_error_t := -9

/-- The C enum `optimizer_format_t`; an integer, so that values outside the
declared enumerators can be passed as well. -/
abbrev optimizer_format_t := Int

def OPTIMIZER_FORMAT_JPEG : optimizer_format_t := 0
def OPTIMIZER_FORMAT_PNG : optimizer_format_t := 1
def OPTIMIZER_FORMAT_WEBP : optimizer_format_t := 2
def OPTIMIZER_FORMAT_AVIF : optimizer_format_t := 3
def OPTIMIZER_FORMAT_HEIC : optimizer_format_t := 4

def OPTIMIZER_VERSION_MAJOR : Nat := 3
def OPTIMIZER_VERSION_MINOR : Nat := 0
def OPTIMIZER_VERSION_PATCH : Nat := 0

/-- The C enum `optimizer_gpu_memory_type_t` of `optimizer_gpu.h`. -/
inductive optimizer_gpu_memory_type_t where
  | OPTIMIZER_GPU_MEMORY_DEFAULT
  | OPTIMIZER_GPU_MEMORY_HOST
  | OPTIMIZER_GPU_MEMORY_DEVICE
  | OPTIMIZER_GPU_MEMORY_UNIFIED
  deriving DecidableEq, Repr

/-- The struct `optimizer_options_t`. -/
structure optimizer_options_t where
  output_format : optimizer_format_t
  compress_level : Int
  colorspace : Int
  quality : Nat
  max_width : Nat
  max_height : Nat
  preserve_metadata : Bool
  use_gpu : Bool
  thread_count : Nat
  enable_preview : Bool
  deriving DecidableEq, Repr

/-! ## Process state -/

/-- The static `g_state`, without its `mtx_t`: the operations on the mutex are
recorded in the trace. -/
structure GState where
  initialized : Bool
  supported_formats : List optimizer_format_t
  num_supported_formats : Nat
  version_string : String
  last_error : optimizer_error_t
  deriving DecidableEq, Repr

/-- The initial value `g_state = {0}`: every member zeroed. -/
def g_state : GState :=
  { initialized := false
    supported_formats := List.replicate 16 0
    num_supported_formats := 0
    version_string := ""
    last_error := 0 }

/-! ## Resources and events -/

/-- The two `FILE*` streams `optimizer_process_file` opens (both held in `fp`). -/
inductive FileId where
  | input
  | output
  deriving DecidableEq, Repr

/-- The host buffers of the orchestrator: the buffer holding the input image
(`buffer` of `optimizer_process_file`, `input_buffer` of
`optimizer_process_buffer`), the result buffer `*output_buffer` that
`optimizer_process_buffer` allocates, and the array `*formats` that
`optimizer_get_supported_formats` allocates. -/
inductive HostBuf where
  | input
  | output
  | formats
  deriving DecidableEq, Repr

/-- The device buffers of `optimizer_process_buffer`: `input_gpu_buffer` and
`output_gpu_buffer`. -/
inductive DevBuf where
  | input
  | output
  deriving DecidableEq, Repr

/-- One call made by the orchestrator to libc, to the device layer, to the
model layer or to a caller-supplied callback, with its arguments and, where
the orchestrator reads it, its result. -/
inductive Event where
  | mtx_init (ok : Bool)
  | mtx_destroy
  | mtx_lock
  | mtx_unlock
  | optimizer_gpu_init (err : optimizer_error_t)
  | optimizer_gpu_cleanup
  | optimizer_ai_init (err : optimizer_error_t)
  | optimizer_ai_cleanup
  | fopen (path : String) (mode : String) (f : FileId) (ok : Bool)
  | fseek (f : FileId)
  | ftell (f : FileId) (size : Nat)
  | fread (dst : HostBuf) (size : Nat) (f : FileId) (count : Nat)
  | fwrite (src : Option HostBuf) (size : Nat) (f : FileId) (count : Nat)
  | fclose (f : FileId)
  | malloc (b : HostBuf) (size : Nat) (ok : Bool)
  | free (b : Option HostBuf)
  | memcpy (dst : HostBuf) (size : Nat)
  | optimizer_gpu_allocate (b : DevBuf) (size : Nat)
      (memory_type : optimizer_gpu_memory_type_t) (err : optimizer_error_t)
  | optimizer_gpu_memcpy_host_to_device (dst : DevBuf) (src : HostBuf) (size : Nat)
      (err : optimizer_error_t)
  | optimizer_gpu_resize (inp outp : DevBuf) (input_width input_height : Nat)
      (output_width output_height : Nat) (colorspace : Int) (err : optimizer_error_t)
  | optimizer_gpu_color_convert (inp outp : DevBuf) (width height : Nat)
      (input_colorspace output_colorspace : Int) (err : optimizer_error_t)
  | optimizer_gpu_compress (inp outp : DevBuf) (width height : Nat)
      (format : optimizer_format_t) (quality : Nat) (err : optimizer_error_t)
      (output_size : Nat)
  | optimizer_gpu_memcpy_device_to_host (dst : HostBuf) (src : DevBuf) (size : Nat)
      (err : optimizer_error_t)
  | optimizer_gpu_free (b : DevBuf)
  | progress_cb
  | preview_cb
  deriving DecidableEq, Repr

/-! ## Outcomes of the calls that are not defined in the repository -/

/-- Outcomes of the three fallible calls of `optimizer_init`. -/
structure InitEnv where
  mtx_init_ok : Bool
  gpu_init : optimizer_error_t
  ai_init : optimizer_error_t
  deriving DecidableEq, Repr

/-- Outcomes of the device-layer calls and of the host `malloc` made by
`optimizer_process_buffer`. `compress_size` is the value `optimizer_gpu_compress`
leaves in `*output_size`. -/
structure GpuEnv where
  allocate : optimizer_error_t
  memcpy_host_to_device : optimizer_error_t
  compress : optimizer_error_t
  compress_size : Nat
  malloc_ok : Bool
  memcpy_device_to_host : optimizer_error_t
  deriving DecidableEq, Repr

/-- Outcomes of the libc calls made by `optimizer_process_file`. -/
structure FileEnv where
  fopen_input_ok : Bool
  ftell_size : Nat
  malloc_ok : Bool
  fread_count : Nat
  fopen_output_ok : Bool
  fwrite_count : Nat
  deriving DecidableEq, Repr

/-! ## Helper functions -/

/-- The static `is_format_supported`: a linear scan over the first
`num_supported_formats` slots of `supported_formats`. -/
def is_format_supported (g : GState) (format : optimizer_format_t) : Bool :=
  (List.range g.num_supported_formats).any
    (fun i => decide (g.supported_formats[i]? = some format))

/-! ## Lifecycle -/

/-- What `optimizer_init` returns, the state it leaves and the calls it made. -/
structure InitResult where
  err : optimizer_error_t
  state : GState
  trace : List Event
  deriving DecidableEq, Repr

/-- One statement `supported_formats[num_supported_formats++] = f`. -/
def push_format (g : GState) (f : optimizer_format_t) : GState :=
  { g with
    supported_formats := g.supported_formats.set g.num_supported_formats f
    num_supported_formats := g.num_supported_formats + 1 }

/-- The text `snprintf` produces for the format `%d.%d.%d` (5 characters, well
inside the 32 bytes of `version_string`). -/
def version_text : String :=
  toString OPTIMIZER_VERSION_MAJOR ++ "." ++ toString OPTIMIZER_VERSION_MINOR ++ "."
    ++ toString OPTIMIZER_VERSION_PATCH

/-- The function `optimizer_init`. -/
def optimizer_init (g : GState) (env : InitEnv) : InitResult :=
  if g.initialized then
    { err := OPTIMIZER_SUCCESS, state := g, trace := [] }
  else if !env.mtx_init_ok then
    { err := OPTIMIZER_ERROR_THREAD, state := g, trace := [.mtx_init false] }
  else if env.gpu_init ≠ OPTIMIZER_SUCCESS then
    { err := env.gpu_init, state := g,
      trace := [.mtx_init true, .optimizer_gpu_init env.gpu_init, .mtx_destroy] }
  else if env.ai_init ≠ OPTIMIZER_SUCCESS then
    { err := env.ai_init, state := g,
      trace := [.mtx_init true, .optimizer_gpu_init env.gpu_init,
                .optimizer_ai_init env.ai_init, .optimizer_gpu_cleanup, .mtx_destroy] }
  else
    let g0 := { g with num_supported_formats := 0 }
    let g1 := push_format g0 OPTIMIZER_FORMAT_JPEG
    let g2 := push_format g1 OPTIMIZER_FORMAT_PNG
    let g3 := push_format g2 OPTIMIZER_FORMAT_WEBP
    let g4 := push_format g3 OPTIMIZER_FORMAT_AVIF
    let g5 := { g4 with version_string := version_text }
    { err := OPTIMIZER_SUCCESS, state := { g5 with initialized := true },
      trace := [.mtx_init true, .optimizer_gpu_init env.gpu_init,
                .optimizer_ai_init env.ai_init] }

/-- What `optimizer_cleanup` leaves and the calls it made. -/
structure CleanupResult where
  state : GState
  trace : List Event
  deriving DecidableEq, Repr

/-- The function `optimizer_cleanup`. -/
def optimizer_cleanup (g : GState) : CleanupResult :=
  if !g.initialized then
    { state := g, trace := [] }
  else
    { state := { g with initialized := false },
      trace := [.optimizer_ai_cleanup, .optimizer_gpu_cleanup, .mtx_destroy] }

/-! ## Messages -/

/-- The static table `error_messages`, 7 entries. -/
def error_messages : List String :=
  [ "Success",
    "Invalid parameter",
    "File I/O error",
    "Memory allocation error",
    "Unsupported format",
    "GPU error",
    "Thread error" ]

/-- Unary minus of a 32-bit `int`, wrapping in two's complement (so that the
negation of `INT_MIN` is `INT_MIN`). -/
def neg_int32 (x : Int) : Int :=
  (-x + 2147483648) % 4294967296 - 2147483648

/-- Reading `table[i]` for an `int` index: `none` when the index lies outside
the table. -/
def index_int (table : List String) (i : Int) : Option String :=
  if i < 0 then none else table[i.toNat]?

/-- The function `optimizer_error_string`; `none` is a read outside
`error_messages`. -/
def optimizer_error_string (error : optimizer_error_t) : Option String :=
  if error ≥ 0 ∨ neg_int32 error > (error_messages.length : Int) then
    some "Unknown error"
  else
    index_int error_messages (neg_int32 error)

/-! ## The buffer pipeline -/

/-- What `optimizer_process_buffer` returns: the result code, the contents of
the two out-parameters on return, and the calls it made. -/
structure BufferResult where
  err : optimizer_error_t
  output_buffer : Option (Option HostBuf)
  output_size : Option Nat
  trace : List Event
  deriving DecidableEq, Repr

open optimizer_gpu_memory_type_t in
/-- The function `optimizer_process_buffer`. The out-parameters `output_buffer`
and `output_size` are pointers to cells: `none` is a null pointer, `some c` a
pointer to a cell holding `c`. -/
def optimizer_process_buffer (g : GState) (env : GpuEnv)
    (input_buffer : Option HostBuf) (input_size : Nat)
    (output_buffer : Option (Option HostBuf)) (output_size : Option Nat)
    (options : Option optimizer_options_t)
    (progress_cb preview_cb : Bool) (user_data : Nat) : BufferResult :=
  if !g.initialized then
    ⟨OPTIMIZER_ERROR_INVALID_PARAM, output_buffer, output_size, []⟩
  else
    match input_buffer, output_buffer, output_size, options with
    | some src, some _, some _, some opts =>
      let t1 : List Event :=
        [.optimizer_gpu_allocate .input input_size OPTIMIZER_GPU_MEMORY_DEVICE env.allocate]
      if env.allocate ≠ OPTIMIZER_SUCCESS then
        ⟨env.allocate, output_buffer, output_size, t1⟩
      else
        let t2 := t1 ++
          [.optimizer_gpu_memcpy_host_to_device .input src input_size env.memcpy_host_to_device]
        if env.memcpy_host_to_device ≠ OPTIMIZER_SUCCESS then
          ⟨env.memcpy_host_to_device, output_buffer, output_size,
            t2 ++ [.optimizer_gpu_free .input]⟩
        else
          let t3 := t2 ++
            [.optimizer_gpu_compress .input .output opts.max_width opts.max_height
               opts.output_format opts.quality env.compress env.compress_size,
             .optimizer_gpu_free .input]
          if env.compress ≠ OPTIMIZER_SUCCESS then
            ⟨env.compress, output_buffer, some env.compress_size, t3⟩
          else
            let t4 := t3 ++ [.malloc .output env.compress_size env.malloc_ok]
            if !env.malloc_ok then
              ⟨OPTIMIZER_ERROR_MEMORY, some none, some env.compress_size,
                t4 ++ [.optimizer_gpu_free .output]⟩
            else
              let t5 := t4 ++
                [.optimizer_gpu_memcpy_device_to_host .output .output env.compress_size
                   env.memcpy_device_to_host,
                 .optimizer_gpu_free .output]
              if env.memcpy_device_to_host ≠ OPTIMIZER_SUCCESS then
                ⟨env.memcpy_device_to_host, some none, some 0,
                  t5 ++ [.free (some .output)]⟩
              else
                ⟨OPTIMIZER_SUCCESS, some (some .output), some env.compress_size, t5⟩
    | _, _, _, _ =>
      ⟨OPTIMIZER_ERROR_INVALID_PARAM, output_buffer, output_size, []⟩

/-! ## The file pipeline -/

/-- What `optimizer_process_file` returns and the calls it made. -/
structure FileResult where
  err : optimizer_error_t
  trace : List Event
  deriving DecidableEq, Repr

/-- The function `optimizer_process_file`. -/
def optimizer_process_file (g : GState) (fenv : FileEnv) (genv : GpuEnv)
    (input_path output_path : Option String)
    (options : Option optimizer_options_t)
    (progress_cb preview_cb : Bool) (user_data : Nat) : FileResult :=
  if !g.initialized then
    ⟨OPTIMIZER_ERROR_INVALID_PARAM, []⟩
  else
    match input_path, output_path, options with
    | some ip, some op, some opts =>
      if !is_format_supported g opts.output_format then
        ⟨OPTIMIZER_ERROR_UNSUPPORTED_FORMAT, []⟩
      else
        let t0 : List Event := [.mtx_lock, .fopen ip "rb" .input fenv.fopen_input_ok]
        if !fenv.fopen_input_ok then
          ⟨ OPTIMIZER_ERROR_FILE_IO, t0 ++ [.mtx_unlock]⟩
        else
          let file_size := fenv.ftell_size
          let t1 := t0 ++
            [.fseek .input, .ftell .input file_size, .fseek .input,
             .malloc .input file_size fenv.malloc_ok]
          if !fenv.malloc_ok then
            ⟨OPTIMIZER_ERROR_MEMORY, t1 ++ [.fclose .input, .mtx_unlock]⟩
          else
            let t2 := t1 ++ [.fread .input file_size .input fenv.fread_count]
            if fenv.fread_count ≠ file_size then
              ⟨ OPTIMIZER_ERROR_FILE_IO,
                t2 ++ [.free (some .input), .fclose .input, .mtx_unlock]⟩
            else
              let r := optimizer_process_buffer g genv (some .input) file_size
                (some none) (some 0) options progress_cb preview_cb user_data
              let output_buffer := r.output_buffer.join
              let output_size := r.output_size.getD 0
              let t3 := t2 ++ [.fclose .input] ++ r.trace ++ [.free (some .input)]
              if r.err ≠ OPTIMIZER_SUCCESS then
                ⟨r.err, t3 ++ [.mtx_unlock]⟩
              else
                let t4 := t3 ++ [.fopen op "wb" .output fenv.fopen_output_ok]
                if !fenv.fopen_output_ok then
                  ⟨ OPTIMIZER_ERROR_FILE_IO, t4 ++ [.free output_buffer, .mtx_unlock]⟩
                else
                  let t5 := t4 ++
                    [.fwrite output_buffer output_size .output fenv.fwrite_count]
                  if fenv.fwrite_count ≠ output_size then
                    ⟨ OPTIMIZER_ERROR_FILE_IO,
                      t5 ++ [.free output_buffer, .fclose .output, .mtx_unlock]⟩
                  else
                    ⟨OPTIMIZER_SUCCESS,
                      t5 ++ [.free output_buffer, .fclose .output, .mtx_unlock]⟩
    | _, _, _ =>
      ⟨OPTIMIZER_ERROR_INVALID_PARAM, []⟩

/-! ## The registry accessor -/

/-- Outcome of the `malloc` made by `optimizer_get_supported_formats`. -/
structure FormatsEnv where
  malloc_ok : Bool
  deriving DecidableEq, Repr

/-- The size in bytes of an `optimizer_format_t` (an enum, stored as an `int`). -/
def sizeof_optimizer_format_t : Nat := 4

/-- The addresses an `optimizer_format_t*` can hold: the static array
`g_state.supported_formats`, or the start of a heap block, named by its
number. -/
inductive FormatPtr where
  | registry
  | block (id : Nat)
  deriving DecidableEq, Repr

/-- The memory `optimizer_get_supported_formats` and its caller share: the
static `g_state` and the heap blocks allocated so far, in allocation order, so
that block `id` is live exactly when `id < heap.length`. -/
structure Memory where
  g : GState
  heap : List (List optimizer_format_t)
  deriving DecidableEq, Repr

/-- Reading the array a pointer points to; `none` when no live block is there. -/
def Memory.load (m : Memory) : FormatPtr → Option (List optimizer_format_t)
  | .registry => some m.g.supported_formats
  | .block id => m.heap[id]?

/-- The store `p[i] = v` through a pointer `p`, for an index inside the array:
through `registry` it changes `g_state.supported_formats`, through a block
pointer the contents of that block. -/
def Memory.store (m : Memory) (p : FormatPtr) (i : Nat) (v : optimizer_format_t) : Memory :=
  match p with
  | .registry =>
    { m with g := { m.g with supported_formats := m.g.supported_formats.set i v } }
  | .block id =>
    { m with heap := m.heap.set id ((m.heap.getD id []).set i v) }

/-- A sequence of stores `p[i] = v` through one pointer, in order. -/
def Memory.stores (m : Memory) (p : FormatPtr) : List (Nat × optimizer_format_t) → Memory
  | [] => m
  | (i, v) :: ws => (m.store p i v).stores p ws

/-- What `optimizer_get_supported_formats` returns: the result code, the
contents of the two out-parameters on return, the memory after the call and
the calls it made. In `formats`, `some (some p)` is a cell holding the pointer
`p` and `some none` a cell holding `NULL`. -/
structure FormatsResult where
  err : optimizer_error_t
  formats : Option (Option FormatPtr)
  count : Option Nat
  mem : Memory
  trace : List Event
  deriving DecidableEq, Repr

/-- The function `optimizer_get_supported_formats`. A successful `malloc` adds
one block to the heap and returns its address; `memcpy` fills that block with
the first `num_supported_formats` slots of `supported_formats`. -/
def optimizer_get_supported_formats (m : Memory) (env : FormatsEnv)
    (formats : Option (Option FormatPtr)) (count : Option Nat) : FormatsResult :=
  match m.g.initialized, formats, count with
  | true, some _, some c =>
    let size := sizeof_optimizer_format_t * m.g.num_supported_formats
    if !env.malloc_ok then
      ⟨OPTIMIZER_ERROR_MEMORY, some none, some c, m, [.malloc .formats size false]⟩
    else
      let p := FormatPtr.block m.heap.length
      let copy := m.g.supported_formats.take m.g.num_supported_formats
      ⟨OPTIMIZER_SUCCESS, some (some p), some m.g.num_supported_formats,
        { m with heap := m.heap ++ [copy] },
        [.malloc .formats size true, .memcpy .formats size]⟩
  | _, _, _ =>
    ⟨OPTIMIZER_ERROR_INVALID_PARAM, formats, count, m, []⟩

/-! ## Observations on traces -/

/-- The device buffer an event brings into existence: the buffer filled in by
a successful `optimizer_gpu_allocate`, and the output buffer produced by a
successful `optimizer_gpu_compress`. -/
def Event.devAlloc : Event → Option DevBuf
  | .optimizer_gpu_allocate b _ _ err => if err = OPTIMIZER_SUCCESS then some b else none
  | .optimizer_gpu_compress _ outp _ _ _ _ err _ =>
      if err = OPTIMIZER_SUCCESS then some outp else none
  | _ => none

/-- The device buffer an `optimizer_gpu_free` call releases. -/
def Event.devFree : Event → Option DevBuf
  | .optimizer_gpu_free b => some b
  | _ => none

/-- Device buffers allocated along a trace, in order. -/
def devAllocated (t : List Event) : List DevBuf := t.filterMap Event.devAlloc

/-- Device buffers passed to `optimizer_gpu_free` along a trace, in order. -/
def devFreed (t : List Event) : List DevBuf := t.filterMap Event.devFree

/-- The host buffer a successful `malloc` brings into existence. -/
def Event.hostAlloc : Event → Option HostBuf
  | .malloc b _ ok => if ok then some b else none
  | _ => none

/-- The host buffer a `free` call releases (`free(NULL)` releases nothing). -/
def Event.hostFree : Event → Option HostBuf
  | .free b => b
  | _ => none

/-- Host buffers allocated along a trace, in order. -/
def hostAllocated (t : List Event) : List HostBuf := t.filterMap Event.hostAlloc

/-- Host buffers freed along a trace, in order. -/
def hostFreed (t : List Event) : List HostBuf := t.filterMap Event.hostFree

/-- The stream a successful `fopen` opens. -/
def Event.fileOpen : Event → Option FileId
  | .fopen _ _ f ok => if ok then some f else none
  | _ => none

/-- The stream an `fclose` call closes. -/
def Event.fileClose : Event → Option FileId
  | .fclose f => some f
  | _ => none

/-- Streams opened along a trace, in order. -/
def filesOpened (t : List Event) : List FileId := t.filterMap Event.fileOpen

/-- Streams closed along a trace, in order. -/
def filesClosed (t : List Event) : List FileId := t.filterMap Event.fileClose

/-- Calls of the stdio file interface. -/
def Event.isFileOp : Event → Bool
  | .fopen .. | .fseek .. | .ftell .. | .fread .. | .fwrite .. | .fclose .. => true
  | _ => false

/-- Calls into the device layer that act on device buffers. -/
def Event.isDeviceOp : Event → Bool
  | .optimizer_gpu_allocate .. | .optimizer_gpu_memcpy_host_to_device ..
  | .optimizer_gpu_resize .. | .optimizer_gpu_color_convert ..
  | .optimizer_gpu_compress .. | .optimizer_gpu_memcpy_device_to_host ..
  | .optimizer_gpu_free .. => true
  | _ => false

/-- Invocations of a caller-supplied callback. -/
def Event.isCallback : Event → Bool
  | .progress_cb | .preview_cb => true
  | _ => false

/-- A file operation that reports failure: an `fopen` returning `NULL`, an
`fread` or `fwrite` transferring a number of bytes other than the one asked. -/
def Event.isFileIoFailure : Event → Bool
  | .fopen _ _ _ ok => !ok
  | .fread _ size _ count => decide (count ≠ size)
  | .fwrite _ size _ count => decide (count ≠ size)
  | _ => false

/-- Replays a trace against the mutex: `held` tells whether the calling thread
holds it. The result is `true` when `mtx_lock` is only called while not
holding it, `mtx_unlock` only while holding it, every file and device
operation happens while holding it, and it is released at the end. -/
def lockDiscipline (held : Bool) : List Event → Bool
  | [] => !held
  | .mtx_lock :: es => !held && lockDiscipline true es
  | .mtx_unlock :: es => held && lockDiscipline false es
  | e :: es => (held || !(e.isFileOp || e.isDeviceOp)) && lockDiscipline held es

/-- The teardown call that undoes an initialisation call. -/
def Event.teardown : Event → Option Event
  | .mtx_init _ => some .mtx_destroy
  | .optimizer_gpu_init _ => some .optimizer_gpu_cleanup
  | .optimizer_ai_init _ => some .optimizer_ai_cleanup
  | _ => none

/-- The steps of the buffer pipeline, with the data each one is given: sizes
in bytes, the target format and quality of a compression. -/
inductive Step where
  | allocate (size : Nat)
  | upload (size : Nat)
  | resize
  | color_convert
  | compress (format : optimizer_format_t) (quality : Nat)
  | release (b : DevBuf)
  | host_allocate (size : Nat)
  | download (size : Nat)
  deriving DecidableEq, Repr

/-- The pipeline step a successful or failed call stands for; calls that are
not part of the device pipeline stand for none. -/
def Event.step : Event → Option Step
  | .optimizer_gpu_allocate _ size _ _ => some (.allocate size)
  | .optimizer_gpu_memcpy_host_to_device _ _ size _ => some (.upload size)
  | .optimizer_gpu_resize .. => some .resize
  | .optimizer_gpu_color_convert .. => some .color_convert
  | .optimizer_gpu_compress _ _ _ _ format quality _ _ => some (.compress format quality)
  | .optimizer_gpu_free b => some (.release b)
  | .malloc .output size _ => some (.host_allocate size)
  | .optimizer_gpu_memcpy_device_to_host _ _ size _ => some (.download size)
  | _ => none

/-- The steps along a trace, in order. -/
def steps (t : List Event) : List Step := t.filterMap Event.step

/-- The resources a pipeline call acquires and releases. -/
inductive Resource where
  | mutex
  | file (f : FileId)
  | host (b : HostBuf)
  | dev (b : DevBuf)
  deriving DecidableEq, Repr

/-- The resource an event acquires: the mutex by `mtx_lock`, a stream by a
successful `fopen`, a host buffer by a successful `malloc`, a device buffer by
a successful `optimizer_gpu_allocate` or `optimizer_gpu_compress`. -/
def Event.acquires : Event → Option Resource
  | .mtx_lock => some .mutex
  | .fopen _ _ f ok => if ok then some (.file f) else none
  | .malloc b _ ok => if ok then some (.host b) else none
  | .optimizer_gpu_allocate b _ _ err =>
      if err = OPTIMIZER_SUCCESS then some (.dev b) else none
  | .optimizer_gpu_compress _ outp _ _ _ _ err _ =>
      if err = OPTIMIZER_SUCCESS then some (.dev outp) else none
  | _ => none

/-- The resource an event releases. -/
def Event.releases : Event → Option Resource
  | .mtx_unlock => some .mutex
  | .fclose f => some (.file f)
  | .free (some b) => some (.host b)
  | .optimizer_gpu_free b => some (.dev b)
  | _ => none

/-- Replays a trace against the stack `held` of resources currently held, most
recent first. The result is `true` when every release is of the resource on
top of the stack, that is, of the most recently acquired resource still held.
Resources still held at the end (handed to the caller) are not constrained. -/
def releasedInReverse (held : List Resource) : List Event → Bool
  | [] => true
  | e :: es =>
    match e.releases with
    | some r =>
      match held with
      | top :: rest => decide (top = r) && releasedInReverse rest es
      | [] => false
    | none =>
      match e.acquires with
      | some r => releasedInReverse (r :: held) es
      | none => releasedInReverse held es

/-! ## Reachable process states -/

/-- The states `g_state` can take: its initial value, and what `optimizer_init`
and `optimizer_cleanup` make of a reachable state (the pipelines do not write
to it). -/
inductive Reachable : GState → Prop where
  | start : Reachable g_state
  | init (g : GState) (env : InitEnv) : Reachable g → Reachable (optimizer_init g env).state
  | cleanup (g : GState) : Reachable g → Reachable (optimizer_cleanup g).state

/-- The contents of `supported_formats` once `optimizer_init` has succeeded. -/
def active_formats : List optimizer_format_t :=
  [OPTIMIZER_FORMAT_JPEG, OPTIMIZER_FORMAT_PNG, OPTIMIZER_FORMAT_WEBP, OPTIMIZER_FORMAT_AVIF]
    ++ List.replicate 12 0

/-! ## Sample inputs -/

/-- Every call of `optimizer_init` succeeds. -/
def init_all_ok : InitEnv := { mtx_init_ok := true, gpu_init := 0, ai_init := 0 }

/-- The state after one successful `optimizer_init` on the initial state. -/
def g_ready : GState := (optimizer_init g_state init_all_ok).state

/-- Every device-layer call and the host `malloc` succeed; compress reports 5 bytes. -/
def gpu_all_ok : GpuEnv :=
  { allocate := 0, memcpy_host_to_device := 0, compress := 0, compress_size := 5,
    malloc_ok := true, memcpy_device_to_host := 0 }

/-- Every file call succeeds on an 8-byte input. -/
def file_all_ok : FileEnv :=
  { fopen_input_ok := true, ftell_size := 8, malloc_ok := true, fread_count := 8,
    fopen_output_ok := true, fwrite_count := 5 }

/-- Options asking for the given output format. -/
def options_for (format : optimizer_format_t) : optimizer_options_t :=
  { output_format := format, compress_level := 2, colorspace := 0, quality := 80,
    max_width := 640, max_height := 480, preserve_metadata := false, use_gpu := true,
    thread_count := 1, enable_preview := false }

/-! ## Facts about reachable states -/

/-- In a reachable state the format array is either still zeroed or holds the
active set; once initialized it holds the active set, with count 4. -/
theorem reachable_formats (g : GState) (h : Reachable g) :
    (g.supported_formats = List.replicate 16 0 ∨ g.supported_formats = active_formats) ∧
    (g.initialized = true →
      g.supported_formats = active_formats ∧ g.num_supported_formats = 4) := by
  induction h with
  | start => simp [g_state]
  | init g env _ ih =>
    obtain ⟨h1, h2⟩ := ih
    unfold optimizer_init
    split_ifs with ha hb hc hd
    · exact ⟨h1, h2⟩
    · exact ⟨h1, h2⟩
    · exact ⟨h1, h2⟩
    · exact ⟨h1, h2⟩
    · rcases h1 with h1 | h1 <;>
        simp [push_format, h1, active_formats, OPTIMIZER_FORMAT_JPEG, OPTIMIZER_FORMAT_PNG,
          OPTIMIZER_FORMAT_WEBP, OPTIMIZER_FORMAT_AVIF]
  | cleanup g _ ih =>
    obtain ⟨h1, h2⟩ := ih
    unfold optimizer_cleanup
    split_ifs with ha
    · exact ⟨h1, h2⟩
    · exact ⟨h1, by simp⟩

/-- In a reachable initialized state `is_format_supported` accepts exactly
JPEG, PNG, WEBP and AVIF. -/
theorem supported_iff_active (g : GState) (h : Reachable g) (hi : g.initialized = true)
    (f : optimizer_format_t) :
    is_format_supported g f = true ↔
      f ∈ [OPTIMIZER_FORMAT_JPEG, OPTIMIZER_FORMAT_PNG, OPTIMIZER_FORMAT_WEBP,
            OPTIMIZER_FORMAT_AVIF] := by
  obtain ⟨ha, hn⟩ := (reachable_formats g h).2 hi
  simp [is_format_supported, ha, hn, active_formats, List.range_succ, OPTIMIZER_FORMAT_JPEG,
    OPTIMIZER_FORMAT_PNG, OPTIMIZER_FORMAT_WEBP, OPTIMIZER_FORMAT_AVIF]
  constructor <;> rintro (h | h | h | h) <;> simp [h]

/-! ## Facts about the sample inputs -/

/-- The sample state is reachable: one `optimizer_init` from the initial state. -/
theorem g_ready_reachable : Reachable g_ready :=
  Reachable.init g_state init_all_ok Reachable.start

/-- The sample state, spelled out. -/
theorem g_ready_eq : g_ready =
    { initialized := true, supported_formats := active_formats,
      num_supported_formats := 4, version_string := "3.0.0", last_error := 0 } := by
  rfl

/-! ## C1: device buffers of the buffer pipeline -/

/-- C1: for all arguments and all outcomes of the device-layer and host steps,
the trace of `optimizer_process_buffer` has as many `optimizer_gpu_free` calls
as device buffers allocated, frees each allocated buffer exactly as often as it
was allocated, and frees no device buffer twice. -/
theorem process_buffer_device_buffers_balanced (g : GState) (env : GpuEnv)
    (input_buffer : Option HostBuf) (input_size : Nat)
    (output_buffer : Option (Option HostBuf)) (output_size : Option Nat)
    (options : Option optimizer_options_t) (progress_cb preview_cb : Bool) (user_data : Nat) :
    let t := (optimizer_process_buffer g env input_buffer input_size output_buffer
      output_size options progress_cb preview_cb user_data).trace
    (devFreed t).length = (devAllocated t).length ∧
    (∀ b, (devFreed t).count b = (devAllocated t).count b) ∧
    (devFreed t).Nodup := by
  intro t
  have key : devFreed t = devAllocated t ∧ (devFreed t).Nodup := by
    simp only [t, optimizer_process_buffer]
    repeat' split
    all_goals simp_all [devFreed, devAllocated, Event.devFree, Event.devAlloc]
  exact ⟨by rw [key.1], fun b => by rw [key.1], key.2⟩

/-! ## The validation steps of the two pipelines -/

/-- An uninitialized library rejects a file request at once. -/
theorem process_file_uninitialized (g : GState) (fenv : FileEnv) (genv : GpuEnv)
    (input_path output_path : Option String) (options : Option optimizer_options_t)
    (progress_cb preview_cb : Bool) (user_data : Nat) (h : g.initialized = false) :
    (optimizer_process_file g fenv genv input_path output_path options progress_cb
        preview_cb user_data).err = OPTIMIZER_ERROR_INVALID_PARAM ∧
    (optimizer_process_file g fenv genv input_path output_path options progress_cb
        preview_cb user_data).trace = [] := by
  unfold optimizer_process_file
  rw [if_pos (by simp [h])]
  exact ⟨rfl, rfl⟩

/-- A null path or null options makes the file pipeline return at once. -/
theorem process_file_null (g : GState) (fenv : FileEnv) (genv : GpuEnv)
    (input_path output_path : Option String) (options : Option optimizer_options_t)
    (progress_cb preview_cb : Bool) (user_data : Nat)
    (h : input_path = none ∨ output_path = none ∨ options = none) :
    (optimizer_process_file g fenv genv input_path output_path options progress_cb
        preview_cb user_data).err = OPTIMIZER_ERROR_INVALID_PARAM ∧
    (optimizer_process_file g fenv genv input_path output_path options progress_cb
        preview_cb user_data).trace = [] := by
  unfold optimizer_process_file
  by_cases hi : (!g.initialized) = true
  · rw [if_pos hi]
    exact ⟨rfl, rfl⟩
  · rw [if_neg hi]
    rcases h with h | h | h
    · subst h; exact ⟨rfl, rfl⟩
    · subst h; cases input_path <;> exact ⟨rfl, rfl⟩
    · subst h; cases input_path <;> cases output_path <;> exact ⟨rfl, rfl⟩

/-- A format the registry rejects makes the file pipeline return at once. -/
theorem process_file_unsupported (g : GState) (fenv : FileEnv) (genv : GpuEnv)
    (ip op : String) (opts : optimizer_options_t)
    (progress_cb preview_cb : Bool) (user_data : Nat) (hi : g.initialized = true)
    (hs : is_format_supported g opts.output_format = false) :
    (optimizer_process_file g fenv genv (some ip) (some op) (some opts) progress_cb
        preview_cb user_data).err = OPTIMIZER_ERROR_UNSUPPORTED_FORMAT ∧
    (optimizer_process_file g fenv genv (some ip) (some op) (some opts) progress_cb
        preview_cb user_data).trace = [] := by
  unfold optimizer_process_file
  rw [if_neg (by simp [hi])]
  simp only []
  rw [if_pos (by simp [hs])]
  exact ⟨rfl, rfl⟩

/-! ## C2: validation in the file pipeline -/

/-- C2: in a reachable state, `optimizer_process_file` returns INVALID_PARAM
with an empty trace when the library is uninitialized or one of `input_path`,
`output_path`, `options` is null; otherwise it returns UNSUPPORTED_FORMAT with
an empty trace when `options.output_format` is rejected by
`is_format_supported`, which once initialized accepts exactly JPEG, PNG, WEBP
and AVIF (so HEIC and every unknown value are rejected). An empty trace means
no mutex lock, no file opened and no host or device buffer allocated. -/
theorem process_file_validates_before_acquiring (g : GState) (hg : Reachable g)
    (fenv : FileEnv) (genv : GpuEnv) (input_path output_path : Option String)
    (options : Option optimizer_options_t) (progress_cb preview_cb : Bool) (user_data : Nat) :
    let r := optimizer_process_file g fenv genv input_path output_path options
      progress_cb preview_cb user_data
    ((g.initialized = false ∨ input_path = none ∨ output_path = none ∨ options = none) →
      r.err = OPTIMIZER_ERROR_INVALID_PARAM ∧ r.trace = []) ∧
    (∀ o, g.initialized = true → input_path ≠ none → output_path ≠ none →
      options = some o →
      o.output_format ∉ [OPTIMIZER_FORMAT_JPEG, OPTIMIZER_FORMAT_PNG, OPTIMIZER_FORMAT_WEBP,
        OPTIMIZER_FORMAT_AVIF] →
      r.err = OPTIMIZER_ERROR_UNSUPPORTED_FORMAT ∧ r.trace = []) ∧
    (g.initialized = true →
      (∀ f, is_format_supported g f = true ↔
        f ∈ [OPTIMIZER_FORMAT_JPEG, OPTIMIZER_FORMAT_PNG, OPTIMIZER_FORMAT_WEBP,
          OPTIMIZER_FORMAT_AVIF]) ∧
      is_format_supported g OPTIMIZER_FORMAT_HEIC = false) := by
  intro r
  refine ⟨?_, ?_, ?_⟩
  · intro h
    rcases h with h | h | h | h
    · exact process_file_uninitialized g fenv genv _ _ _ _ _ _ h
    · subst h
      exact process_file_null g fenv genv _ _ _ _ _ _ (Or.inl rfl)
    · subst h
      exact process_file_null g fenv genv _ _ _ _ _ _ (Or.inr (Or.inl rfl))
    · subst h
      exact process_file_null g fenv genv _ _ _ _ _ _ (Or.inr (Or.inr rfl))
  · intro o hi hp hq ho hf
    have hs : is_format_supported g o.output_format = false := by
      rw [Bool.eq_false_iff]
      intro hc
      exact hf ((supported_iff_active g hg hi _).1 hc)
    obtain ⟨p, rfl⟩ := Option.ne_none_iff_exists'.1 hp
    obtain ⟨q, rfl⟩ := Option.ne_none_iff_exists'.1 hq
    subst ho
    exact process_file_unsupported g fenv genv p q o _ _ _ hi hs
  · intro hi
    refine ⟨fun f => supported_iff_active g hg hi f, ?_⟩
    rw [Bool.eq_false_iff]
    intro hc
    have := (supported_iff_active g hg hi _).1 hc
    revert this
    decide

/-- C2 at a sample input: an initialized library asked for HEIC output. -/
theorem process_file_validates_before_acquiring_witness :
    Reachable g_ready ∧
    (optimizer_process_file g_ready file_all_ok gpu_all_ok (some "in.png") (some "out.heic")
      (some (options_for OPTIMIZER_FORMAT_HEIC)) false false 0).err
        = OPTIMIZER_ERROR_UNSUPPORTED_FORMAT ∧
    (optimizer_process_file g_ready file_all_ok gpu_all_ok (some "in.png") (some "out.heic")
      (some (options_for OPTIMIZER_FORMAT_HEIC)) false false 0).trace = [] :=
  ⟨g_ready_reachable,
   (process_file_validates_before_acquiring g_ready g_ready_reachable file_all_ok gpu_all_ok
      (some "in.png") (some "out.heic") (some (options_for OPTIMIZER_FORMAT_HEIC))
      false false 0).2.1 _ rfl (by simp) (by simp) rfl (by decide)⟩

/-! ## C3: the buffer pipeline does not consult the format registry -/

/-- C3, the code at the failing input: on an initialized library, with non-null
arguments and the unsupported format HEIC, `optimizer_process_buffer` does not
return UNSUPPORTED_FORMAT; its first step is `optimizer_gpu_allocate`, and with
every device step succeeding it allocates two device buffers and returns
SUCCESS. -/
theorem process_buffer_heic_not_rejected :
    g_ready.initialized = true ∧
    is_format_supported g_ready OPTIMIZER_FORMAT_HEIC = false ∧
    (optimizer_process_buffer g_ready gpu_all_ok (some .input) 8 (some none) (some 0)
      (some (options_for OPTIMIZER_FORMAT_HEIC)) false false 0).err = OPTIMIZER_SUCCESS ∧
    (optimizer_process_buffer g_ready gpu_all_ok (some .input) 8 (some none) (some 0)
      (some (options_for OPTIMIZER_FORMAT_HEIC)) false false 0).trace.head?
        = some (.optimizer_gpu_allocate .input 8
            optimizer_gpu_memory_type_t.OPTIMIZER_GPU_MEMORY_DEVICE OPTIMIZER_SUCCESS) ∧
    devAllocated (optimizer_process_buffer g_ready gpu_all_ok (some .input) 8 (some none)
      (some 0) (some (options_for OPTIMIZER_FORMAT_HEIC)) false false 0).trace
        = [.input, .output] := by
  refine ⟨rfl, ?_, rfl, rfl, ?_⟩
  · decide
  · decide

/-! ## What the buffer pipeline's trace is made of -/

/-- The buffer pipeline makes no mutex call, no file call and no callback
invocation: its trace holds device operations and `malloc`/`free` only. -/
theorem process_buffer_trace_events (g : GState) (env : GpuEnv)
    (input_buffer : Option HostBuf) (input_size : Nat)
    (output_buffer : Option (Option HostBuf)) (output_size : Option Nat)
    (options : Option optimizer_options_t) (progress_cb preview_cb : Bool) (user_data : Nat) :
    ∀ e ∈ (optimizer_process_buffer g env input_buffer input_size output_buffer
      output_size options progress_cb preview_cb user_data).trace,
      e ≠ .mtx_lock ∧ e ≠ .mtx_unlock ∧ e.isFileOp = false ∧ e.isCallback = false ∧
      e.isFileIoFailure = false := by
  simp only [optimizer_process_buffer]
  repeat' split
  all_goals simp_all [Event.isFileOp, Event.isCallback, Event.isFileIoFailure]

/-- Events other than `mtx_lock` and `mtx_unlock` leave a held mutex held. -/
theorem lockDiscipline_append_held (t u : List Event)
    (h : ∀ e ∈ t, e ≠ .mtx_lock ∧ e ≠ .mtx_unlock) :
    lockDiscipline true (t ++ u) = lockDiscipline true u := by
  induction t with
  | nil => rfl
  | cons e t ih =>
    have he := h e (List.mem_cons_self e t)
    have ih2 := ih (fun x hx => h x (List.mem_cons_of_mem e hx))
    cases e <;> simp_all [lockDiscipline]

/-! ## C4: the mutex in the two pipelines -/

/-- Every `optimizer_process_file` call that passes validation holds the mutex
for its full duration. Its trace starts with `mtx_lock`, ends
with `mtx_unlock`, contains exactly one of each, and replays correctly against
the mutex: every file and device operation of the call, those of the nested
buffer pipeline included, happens while the mutex is held. -/
theorem process_file_holds_mutex (g : GState) (fenv : FileEnv) (genv : GpuEnv)
    (ip op : String) (opts : optimizer_options_t)
    (progress_cb preview_cb : Bool) (user_data : Nat)
    (hi : g.initialized = true)
    (hs : is_format_supported g opts.output_format = true) :
    let t := (optimizer_process_file g fenv genv (some ip) (some op) (some opts)
      progress_cb preview_cb user_data).trace
    t.head? = some .mtx_lock ∧ t.getLast? = some .mtx_unlock ∧
    t.count .mtx_lock = 1 ∧ t.count .mtx_unlock = 1 ∧
    lockDiscipline false t = true := by
  intro t
  have hb := process_buffer_trace_events g genv (some .input) fenv.ftell_size (some none)
    (some 0) (some opts) progress_cb preview_cb user_data
  simp only [t, optimizer_process_file, hi, hs, Bool.not_true, Bool.false_eq_true, if_false]
  generalize optimizer_process_buffer g genv (some .input) fenv.ftell_size (some none)
    (some 0) (some opts) progress_cb preview_cb user_data = r at hb
  have hl : r.trace.count .mtx_lock = 0 :=
    List.count_eq_zero.2 (fun hm => (hb _ hm).1 rfl)
  have hu : r.trace.count .mtx_unlock = 0 :=
    List.count_eq_zero.2 (fun hm => (hb _ hm).2.1 rfl)
  have hd : ∀ u, lockDiscipline true (r.trace ++ u) = lockDiscipline true u :=
    fun u => lockDiscipline_append_held _ u (fun e he => ⟨(hb e he).1, (hb e he).2.1⟩)
  split_ifs <;>
    simp [lockDiscipline, Event.isFileOp, Event.isDeviceOp, hl, hu, hd, List.getLast?_cons]

/-- The file pipeline holds the mutex at a sample input: a JPEG request on an
initialized library. -/
theorem process_file_holds_mutex_witness :
    g_ready.initialized = true ∧
    is_format_supported g_ready (options_for OPTIMIZER_FORMAT_JPEG).output_format = true ∧
    lockDiscipline false
      (optimizer_process_file g_ready file_all_ok gpu_all_ok (some "in.png") (some "out.jpg")
        (some (options_for OPTIMIZER_FORMAT_JPEG)) false false 0).trace = true :=
  ⟨rfl, by decide,
   (process_file_holds_mutex g_ready file_all_ok gpu_all_ok "in.png" "out.jpg"
      (options_for OPTIMIZER_FORMAT_JPEG) false false 0 rfl (by decide)).2.2.2.2⟩

/-- A validated `optimizer_process_buffer` call never touches the mutex: for
all outcomes of the device steps its trace holds no `mtx_lock` and no
`mtx_unlock`, starts with a device operation, and so fails the replay against
the mutex. -/
theorem process_buffer_never_locks (g : GState) (env : GpuEnv)
    (src : HostBuf) (input_size : Nat) (out0 : Option HostBuf) (size0 : Nat)
    (opts : optimizer_options_t) (progress_cb preview_cb : Bool) (user_data : Nat)
    (hi : g.initialized = true) :
    (optimizer_process_buffer g env (some src) input_size (some out0) (some size0)
      (some opts) progress_cb preview_cb user_data).trace.count .mtx_lock = 0 ∧
    (optimizer_process_buffer g env (some src) input_size (some out0) (some size0)
      (some opts) progress_cb preview_cb user_data).trace.count .mtx_unlock = 0 ∧
    (optimizer_process_buffer g env (some src) input_size (some out0) (some size0)
      (some opts) progress_cb preview_cb user_data).trace.any Event.isDeviceOp = true ∧
    lockDiscipline false
      (optimizer_process_buffer g env (some src) input_size (some out0) (some size0)
        (some opts) progress_cb preview_cb user_data).trace = false := by
  have hb := process_buffer_trace_events g env (some src) input_size (some out0)
    (some size0) (some opts) progress_cb preview_cb user_data
  refine ⟨List.count_eq_zero.2 (fun hm => (hb _ hm).1 rfl),
    List.count_eq_zero.2 (fun hm => (hb _ hm).2.1 rfl), ?_, ?_⟩
  · simp only [optimizer_process_buffer, hi, Bool.not_true, Bool.false_eq_true, if_false]
    split_ifs <;> simp [Event.isDeviceOp]
  · simp only [optimizer_process_buffer, hi, Bool.not_true, Bool.false_eq_true, if_false]
    split_ifs <;> simp [lockDiscipline, Event.isDeviceOp, Event.isFileOp]

/-- C4, the code at the failing input: `optimizer_process_buffer` called
directly on an initialized library, with non-null arguments and a supported
format, passes validation and succeeds, performs device operations, and its
trace holds no `mtx_lock` and no `mtx_unlock`: the device operations run
without the mutex, which fails the replay against it. -/
theorem process_buffer_direct_call_never_locks :
    g_ready.initialized = true ∧
    is_format_supported g_ready (options_for OPTIMIZER_FORMAT_JPEG).output_format = true ∧
    (optimizer_process_buffer g_ready gpu_all_ok (some .input) 8 (some none) (some 0)
      (some (options_for OPTIMIZER_FORMAT_JPEG)) false false 0).err = OPTIMIZER_SUCCESS ∧
    (optimizer_process_buffer g_ready gpu_all_ok (some .input) 8 (some none) (some 0)
      (some (options_for OPTIMIZER_FORMAT_JPEG)) false false 0).trace.any Event.isDeviceOp
        = true ∧
    (optimizer_process_buffer g_ready gpu_all_ok (some .input) 8 (some none) (some 0)
      (some (options_for OPTIMIZER_FORMAT_JPEG)) false false 0).trace.count .mtx_lock = 0 ∧
    (optimizer_process_buffer g_ready gpu_all_ok (some .input) 8 (some none) (some 0)
      (some (options_for OPTIMIZER_FORMAT_JPEG)) false false 0).trace.count .mtx_unlock = 0 ∧
    lockDiscipline false
      (optimizer_process_buffer g_ready gpu_all_ok (some .input) 8 (some none) (some 0)
        (some (options_for OPTIMIZER_FORMAT_JPEG)) false false 0).trace = false := by
  refine ⟨rfl, by decide, rfl, by decide, by decide, by decide, by decide⟩

/-! ## C5: order and rollback in `optimizer_init` -/

/-- C5: from an uninitialized state `optimizer_init` calls `mtx_init`, then
`optimizer_gpu_init`, then `optimizer_ai_init`. A failing `mtx_init` gives
THREAD with no subsystem call; a failing `optimizer_gpu_init` gives its code
after `mtx_destroy`, without `optimizer_ai_init`; a failing `optimizer_ai_init`
gives its code after `optimizer_gpu_cleanup` and then `mtx_destroy`. Every
failure leaves the state as it was, so the initialized flag is still false. -/
theorem optimizer_init_order_and_rollback (g : GState) (env : InitEnv)
    (h : g.initialized = false) :
    (env.mtx_init_ok = false →
      (optimizer_init g env).err = OPTIMIZER_ERROR_THREAD ∧
      (optimizer_init g env).trace = [.mtx_init false] ∧
      (optimizer_init g env).state = g) ∧
    (env.mtx_init_ok = true → env.gpu_init ≠ OPTIMIZER_SUCCESS →
      (optimizer_init g env).err = env.gpu_init ∧
      (optimizer_init g env).trace =
        [.mtx_init true, .optimizer_gpu_init env.gpu_init, .mtx_destroy] ∧
      (optimizer_init g env).state = g) ∧
    (env.mtx_init_ok = true → env.gpu_init = OPTIMIZER_SUCCESS →
      env.ai_init ≠ OPTIMIZER_SUCCESS →
      (optimizer_init g env).err = env.ai_init ∧
      (optimizer_init g env).trace =
        [.mtx_init true, .optimizer_gpu_init OPTIMIZER_SUCCESS,
         .optimizer_ai_init env.ai_init, .optimizer_gpu_cleanup, .mtx_destroy] ∧
      (optimizer_init g env).state = g) ∧
    (env.mtx_init_ok = true → env.gpu_init = OPTIMIZER_SUCCESS →
      env.ai_init = OPTIMIZER_SUCCESS →
      (optimizer_init g env).err = OPTIMIZER_SUCCESS ∧
      (optimizer_init g env).trace =
        [.mtx_init true, .optimizer_gpu_init OPTIMIZER_SUCCESS,
         .optimizer_ai_init OPTIMIZER_SUCCESS] ∧
      (optimizer_init g env).state.initialized = true) ∧
    ((optimizer_init g env).err ≠ OPTIMIZER_SUCCESS →
      (optimizer_init g env).state.initialized = false) := by
  refine ⟨?_, ?_, ?_, ?_, ?_⟩
  · intro h1
    simp [optimizer_init, h, h1]
  · intro h1 h2
    simp [optimizer_init, h, h1, h2]
  · intro h1 h2 h3
    simp [optimizer_init, h, h1, h2, h3]
  · intro h1 h2 h3
    simp [optimizer_init, h, h1, h2, h3]
  · unfold optimizer_init
    split_ifs <;> simp_all

/-- C5 at a sample input: the model layer fails with GPU on the initial state. -/
theorem optimizer_init_order_and_rollback_witness :
    g_state.initialized = false ∧
    (optimizer_init g_state ⟨true, OPTIMIZER_SUCCESS, OPTIMIZER_ERROR_GPU⟩).trace =
      [.mtx_init true, .optimizer_gpu_init OPTIMIZER_SUCCESS,
       .optimizer_ai_init OPTIMIZER_ERROR_GPU, .optimizer_gpu_cleanup, .mtx_destroy] ∧
    (optimizer_init g_state ⟨true, OPTIMIZER_SUCCESS, OPTIMIZER_ERROR_GPU⟩).state.initialized
      = false :=
  ⟨rfl,
   ((optimizer_init_order_and_rollback g_state ⟨true, OPTIMIZER_SUCCESS, OPTIMIZER_ERROR_GPU⟩
      rfl).2.2.1 rfl rfl (by decide)).2.1,
   (optimizer_init_order_and_rollback g_state ⟨true, OPTIMIZER_SUCCESS, OPTIMIZER_ERROR_GPU⟩
      rfl).2.2.2.2 (by decide)⟩

/-! ## C6: `optimizer_init` is idempotent -/

/-- C6: on an initialized state `optimizer_init` returns SUCCESS, makes no
call and returns the state unchanged. Hence, when a first `optimizer_init`
succeeds, a second one right after it returns SUCCESS with an empty trace and
the same state; and if the first started uninitialized, the two calls together
make exactly one `mtx_init`, one `optimizer_gpu_init` and one
`optimizer_ai_init`. -/
theorem optimizer_init_idempotent (g : GState) (env1 env2 : InitEnv)
    (h1 : (optimizer_init g env1).err = OPTIMIZER_SUCCESS) :
    (g.initialized = true →
      optimizer_init g env2 = { err := OPTIMIZER_SUCCESS, state := g, trace := [] }) ∧
    optimizer_init (optimizer_init g env1).state env2 =
      { err := OPTIMIZER_SUCCESS, state := (optimizer_init g env1).state, trace := [] } ∧
    (g.initialized = false →
      (optimizer_init g env1).trace ++
          (optimizer_init (optimizer_init g env1).state env2).trace =
        [.mtx_init true, .optimizer_gpu_init OPTIMIZER_SUCCESS,
         .optimizer_ai_init OPTIMIZER_SUCCESS]) := by
  have hinit : (optimizer_init g env1).state.initialized = true := by
    revert h1
    unfold optimizer_init
    split_ifs with ha hb hc hd
    · intro _; exact ha
    · intro hx; exact absurd (show OPTIMIZER_ERROR_THREAD = OPTIMIZER_SUCCESS from hx) (by decide)
    · intro hx; exact absurd hx hc
    · intro hx; exact absurd hx hd
    · intro _; rfl
  have hidem : ∀ s : GState, s.initialized = true →
      optimizer_init s env2 = { err := OPTIMIZER_SUCCESS, state := s, trace := [] } := by
    intro s hs
    unfold optimizer_init
    rw [if_pos hs]
  refine ⟨hidem g, hidem _ hinit, ?_⟩
  intro hg
  rw [hidem _ hinit]
  revert h1
  unfold optimizer_init
  split_ifs with ha hb hc hd
  · simp [hg] at ha
  · intro hx; exact absurd (show OPTIMIZER_ERROR_THREAD = OPTIMIZER_SUCCESS from hx) (by decide)
  · intro hx; exact absurd hx hc
  · intro hx; exact absurd hx hd
  · intro _
    have hc2 : env1.gpu_init = OPTIMIZER_SUCCESS := not_not.1 hc
    have hd2 : env1.ai_init = OPTIMIZER_SUCCESS := not_not.1 hd
    simp [hc2, hd2]

/-- C6 at a sample input: two successive inits on the initial state. -/
theorem optimizer_init_idempotent_witness :
    (optimizer_init g_state init_all_ok).err = OPTIMIZER_SUCCESS ∧
    optimizer_init (optimizer_init g_state init_all_ok).state init_all_ok =
      { err := OPTIMIZER_SUCCESS, state := (optimizer_init g_state init_all_ok).state,
        trace := [] } :=
  ⟨rfl, (optimizer_init_idempotent g_state init_all_ok init_all_ok rfl).2.1⟩

/-! ## C7: `optimizer_cleanup` -/

/-- C7: on an uninitialized state `optimizer_cleanup` makes no call and
returns the state unchanged; on an initialized state it calls
`optimizer_ai_cleanup`, `optimizer_gpu_cleanup`, `mtx_destroy` in that order,
which undoes the calls of a successful `optimizer_init` in reverse, and clears
the initialized flag only. A second cleanup is then a no-op, both pipelines
return INVALID_PARAM with an empty trace on the cleaned state, and a failing
`optimizer_init` leaves the cleaned state as it is, whereas a succeeding one
sets the flag again. -/
theorem optimizer_cleanup_teardown (g : GState) :
    (g.initialized = false → optimizer_cleanup g = { state := g, trace := [] }) ∧
    (g.initialized = true →
      (optimizer_cleanup g).trace =
        [.optimizer_ai_cleanup, .optimizer_gpu_cleanup, .mtx_destroy] ∧
      (optimizer_cleanup g).trace =
        (optimizer_init g_state init_all_ok).trace.reverse.filterMap Event.teardown ∧
      (optimizer_cleanup g).state = { g with initialized := false }) ∧
    (optimizer_cleanup g).state.initialized = false ∧
    optimizer_cleanup (optimizer_cleanup g).state =
      { state := (optimizer_cleanup g).state, trace := [] } ∧
    (∀ fenv genv input_path output_path options progress_cb preview_cb user_data,
      (optimizer_process_file (optimizer_cleanup g).state fenv genv input_path output_path
        options progress_cb preview_cb user_data).err = OPTIMIZER_ERROR_INVALID_PARAM ∧
      (optimizer_process_file (optimizer_cleanup g).state fenv genv input_path output_path
        options progress_cb preview_cb user_data).trace = []) ∧
    (∀ genv input_buffer input_size output_buffer output_size options progress_cb preview_cb
        user_data,
      (optimizer_process_buffer (optimizer_cleanup g).state genv input_buffer input_size
        output_buffer output_size options progress_cb preview_cb user_data).err
          = OPTIMIZER_ERROR_INVALID_PARAM ∧
      (optimizer_process_buffer (optimizer_cleanup g).state genv input_buffer input_size
        output_buffer output_size options progress_cb preview_cb user_data).trace = []) ∧
    (∀ env, (optimizer_init (optimizer_cleanup g).state env).err ≠ OPTIMIZER_SUCCESS →
      (optimizer_init (optimizer_cleanup g).state env).state = (optimizer_cleanup g).state) ∧
    (∀ env, (optimizer_init (optimizer_cleanup g).state env).err = OPTIMIZER_SUCCESS →
      (optimizer_init (optimizer_cleanup g).state env).state.initialized = true) := by
  have hoff : (optimizer_cleanup g).state.initialized = false := by
    unfold optimizer_cleanup
    split_ifs with ha
    · simpa using ha
    · rfl
  have hnoop : ∀ s : GState, s.initialized = false →
      optimizer_cleanup s = { state := s, trace := [] } := by
    intro s hs
    unfold optimizer_cleanup
    rw [if_pos (by simp [hs])]
  refine ⟨hnoop g, ?_, hoff, hnoop _ hoff, ?_, ?_, ?_, ?_⟩
  · intro hg
    unfold optimizer_cleanup
    rw [if_neg (by simp [hg])]
    exact ⟨rfl, rfl, rfl⟩
  · intro fenv genv input_path output_path options progress_cb preview_cb user_data
    exact process_file_uninitialized _ fenv genv _ _ _ _ _ _ hoff
  · intro genv input_buffer input_size output_buffer output_size options progress_cb
      preview_cb user_data
    unfold optimizer_process_buffer
    rw [if_pos (by simp [hoff])]
    exact ⟨rfl, rfl⟩
  · intro env
    generalize (optimizer_cleanup g).state = s at hoff ⊢
    unfold optimizer_init
    split_ifs <;> simp_all
  · intro env
    generalize (optimizer_cleanup g).state = s at hoff ⊢
    unfold optimizer_init
    split_ifs with ha hb hc hd
    · intro _; exact ha
    · intro hx; exact absurd (show OPTIMIZER_ERROR_THREAD = OPTIMIZER_SUCCESS from hx) (by decide)
    · intro hx; exact absurd hx hc
    · intro hx; exact absurd hx hd
    · intro _; rfl

/-- C7 at a sample input: cleanup of the state a successful init produced. -/
theorem optimizer_cleanup_teardown_witness :
    g_ready.initialized = true ∧
    (optimizer_cleanup g_ready).trace =
      [.optimizer_ai_cleanup, .optimizer_gpu_cleanup, .mtx_destroy] ∧
    (optimizer_cleanup g_ready).state.initialized = false :=
  ⟨rfl, ((optimizer_cleanup_teardown g_ready).2.1 rfl).1,
   (optimizer_cleanup_teardown g_ready).2.2.1⟩

/-! ## C8: file I/O failures in the file pipeline -/

/-- INVALID_PARAM is not SUCCESS. -/
theorem invalid_param_ne_success : OPTIMIZER_ERROR_INVALID_PARAM ≠ OPTIMIZER_SUCCESS := by
  decide

/-- MEMORY is not SUCCESS. -/
theorem memory_ne_success : OPTIMIZER_ERROR_MEMORY ≠ OPTIMIZER_SUCCESS := by
  decide

/-- A successful buffer pipeline allocated the result buffer, did not free it,
and stored it in `*output_buffer`. -/
theorem process_buffer_success_host (g : GState) (env : GpuEnv)
    (input_buffer : Option HostBuf) (input_size : Nat)
    (output_buffer : Option (Option HostBuf)) (output_size : Option Nat)
    (options : Option optimizer_options_t) (progress_cb preview_cb : Bool) (user_data : Nat)
    (h : (optimizer_process_buffer g env input_buffer input_size output_buffer
      output_size options progress_cb preview_cb user_data).err = OPTIMIZER_SUCCESS) :
    (optimizer_process_buffer g env input_buffer input_size output_buffer
      output_size options progress_cb preview_cb user_data).output_buffer
        = some (some .output) ∧
    List.filterMap Event.hostAlloc (optimizer_process_buffer g env input_buffer input_size
      output_buffer output_size options progress_cb preview_cb user_data).trace = [.output] ∧
    List.filterMap Event.hostFree (optimizer_process_buffer g env input_buffer input_size
      output_buffer output_size options progress_cb preview_cb user_data).trace = [] := by
  revert h
  simp only [optimizer_process_buffer]
  repeat' split
  all_goals
    intro h
    dsimp only at h
    first
      | exact absurd h invalid_param_ne_success
      | exact absurd h memory_ne_success
      | exact absurd h (by assumption)
      | skip
  rename_i h1 _ _ _ _ _ _ _ _ h2 h3 h4 h5 h6
  simp only [Bool.not_eq_true', Bool.not_eq_false, ne_eq, not_not] at h5
  simp [Event.hostAlloc, Event.hostFree, h5]

/-- A trace without file calls opens no stream, closes none and reports no
file failure. -/
theorem no_file_events (t : List Event)
    (h : ∀ e ∈ t, e.isFileOp = false ∧ e.isFileIoFailure = false) :
    List.filterMap Event.fileOpen t = [] ∧ List.filterMap Event.fileClose t = [] ∧
    t.any Event.isFileIoFailure = false := by
  induction t with
  | nil => exact ⟨rfl, rfl, rfl⟩
  | cons e t ih =>
    have he := h e (List.mem_cons_self e t)
    obtain ⟨i1, i2, i3⟩ := ih (fun x hx => h x (List.mem_cons_of_mem e hx))
    clear h ih
    obtain ⟨he1, he2⟩ := he
    have h1 : e.fileOpen = none := by
      cases e <;> first | rfl | simp [Event.isFileOp] at he1
    have h2 : e.fileClose = none := by
      cases e <;> first | rfl | simp [Event.isFileOp] at he1
    refine ⟨?_, ?_, ?_⟩
    · rw [List.filterMap_cons_none h1, i1]
    · rw [List.filterMap_cons_none h2, i2]
    · rw [List.any_cons, he2, i3]; rfl

/-- C8: whenever the trace of `optimizer_process_file` contains a failed file
operation (an `fopen` returning null, an `fread` or `fwrite` transferring
another number of bytes than asked), the call returns FILE_IO, and on return
it has locked and unlocked the mutex exactly once, closed exactly the streams
it opened, each once, and freed exactly the host buffers allocated during the
call, each once. -/
theorem process_file_io_failure_releases (g : GState) (fenv : FileEnv) (genv : GpuEnv)
    (input_path output_path : Option String) (options : Option optimizer_options_t)
    (progress_cb preview_cb : Bool) (user_data : Nat)
    (hfail : (optimizer_process_file g fenv genv input_path output_path options
      progress_cb preview_cb user_data).trace.any Event.isFileIoFailure = true) :
    let r := optimizer_process_file g fenv genv input_path output_path options
      progress_cb preview_cb user_data
    r.err = OPTIMIZER_ERROR_FILE_IO ∧
    r.trace.count .mtx_lock = 1 ∧ r.trace.count .mtx_unlock = 1 ∧
    r.trace.getLast? = some .mtx_unlock ∧
    (∀ f, (filesClosed r.trace).count f = (filesOpened r.trace).count f) ∧
    (filesClosed r.trace).Nodup ∧
    (∀ b, (hostFreed r.trace).count b = (hostAllocated r.trace).count b) ∧
    (hostFreed r.trace).Nodup := by
  intro r
  -- validation passed: otherwise the trace is empty
  cases hi : g.initialized with
  | false =>
    rw [(process_file_uninitialized g fenv genv _ _ _ _ _ _ hi).2] at hfail
    simp at hfail
  | true =>
  rcases input_path with _ | ip
  · rw [(process_file_null g fenv genv _ _ _ _ _ _ (Or.inl rfl)).2] at hfail
    simp at hfail
  rcases output_path with _ | op
  · rw [(process_file_null g fenv genv _ _ _ _ _ _ (Or.inr (Or.inl rfl))).2] at hfail
    simp at hfail
  rcases options with _ | opts
  · rw [(process_file_null g fenv genv _ _ _ _ _ _ (Or.inr (Or.inr rfl))).2] at hfail
    simp at hfail
  cases hs : is_format_supported g opts.output_format with
  | false =>
    rw [(process_file_unsupported g fenv genv ip op opts _ _ _ hi hs).2] at hfail
    simp at hfail
  | true =>
  have key : r.err = OPTIMIZER_ERROR_FILE_IO ∧
      r.trace.count .mtx_lock = 1 ∧ r.trace.count .mtx_unlock = 1 ∧
      r.trace.getLast? = some .mtx_unlock ∧
      filesClosed r.trace = filesOpened r.trace ∧ (filesClosed r.trace).Nodup ∧
      hostFreed r.trace = hostAllocated r.trace ∧ (hostFreed r.trace).Nodup := by
    have hb := process_buffer_trace_events g genv (some .input) fenv.ftell_size (some none)
      (some 0) (some opts) progress_cb preview_cb user_data
    have hh := process_buffer_success_host g genv (some .input) fenv.ftell_size (some none)
      (some 0) (some opts) progress_cb preview_cb user_data
    revert hfail
    simp only [r, optimizer_process_file, hi, hs, Bool.not_true, Bool.false_eq_true, if_false]
    generalize optimizer_process_buffer g genv (some .input) fenv.ftell_size (some none)
      (some 0) (some opts) progress_cb preview_cb user_data = rb at hb hh
    have hl : rb.trace.count .mtx_lock = 0 :=
      List.count_eq_zero.2 (fun hm => (hb _ hm).1 rfl)
    have hu : rb.trace.count .mtx_unlock = 0 :=
      List.count_eq_zero.2 (fun hm => (hb _ hm).2.1 rfl)
    obtain ⟨ho, hc, hn⟩ := no_file_events rb.trace
      (fun e he => ⟨(hb e he).2.2.1, (hb e he).2.2.2.2⟩)
    clear hb
    obtain ⟨fo, sz, mo, fr, foo, fw⟩ := fenv
    split_ifs
    all_goals
      intro hf
      simp only [Bool.not_eq_true', Bool.not_eq_false, ne_eq, not_not] at *
      subst_vars
      try (have hh2 := hh (by assumption))
      (simp [filesClosed, filesOpened, hostFreed, hostAllocated, Event.fileOpen,
        Event.fileClose, Event.hostAlloc, Event.hostFree, Event.isFileIoFailure,
        List.getLast?_cons, *] at hf ⊢)
  obtain ⟨k1, k2, k3, k4, k5, k6, k7, k8⟩ := key
  exact ⟨k1, k2, k3, k4, fun f => by rw [k5], k6, fun b => by rw [k7], k8⟩

/-- C8 at a sample input: the output file takes 3 of the 5 bytes. -/
theorem process_file_io_failure_releases_witness :
    (optimizer_process_file g_ready { file_all_ok with fwrite_count := 3 } gpu_all_ok
      (some "in.png") (some "out.jpg") (some (options_for OPTIMIZER_FORMAT_JPEG))
      false false 0).trace.any Event.isFileIoFailure = true ∧
    (optimizer_process_file g_ready { file_all_ok with fwrite_count := 3 } gpu_all_ok
      (some "in.png") (some "out.jpg") (some (options_for OPTIMIZER_FORMAT_JPEG))
      false false 0).err = OPTIMIZER_ERROR_FILE_IO ∧
    hostFreed (optimizer_process_file g_ready { file_all_ok with fwrite_count := 3 } gpu_all_ok
      (some "in.png") (some "out.jpg") (some (options_for OPTIMIZER_FORMAT_JPEG))
      false false 0).trace = [.input, .output] :=
  ⟨by decide,
   (process_file_io_failure_releases g_ready { file_all_ok with fwrite_count := 3 } gpu_all_ok
      (some "in.png") (some "out.jpg") (some (options_for OPTIMIZER_FORMAT_JPEG))
      false false 0 (by decide)).1,
   by decide⟩

/-! ## C9: a missing input file -/

/-- C9: on an initialized library, with non-null arguments and a supported
output format, when opening the input fails `optimizer_process_file` returns
FILE_IO after locking, the failed `fopen` and unlocking only: no callback is
invoked, no device operation is made and no device buffer is allocated. -/
theorem process_file_missing_input (g : GState) (fenv : FileEnv) (genv : GpuEnv)
    (ip op : String) (opts : optimizer_options_t)
    (progress_cb preview_cb : Bool) (user_data : Nat)
    (hi : g.initialized = true)
    (hs : is_format_supported g opts.output_format = true)
    (hopen : fenv.fopen_input_ok = false) :
    let r := optimizer_process_file g fenv genv (some ip) (some op) (some opts)
      progress_cb preview_cb user_data
    r.err = OPTIMIZER_ERROR_FILE_IO ∧
    r.trace = [.mtx_lock, .fopen ip "rb" .input false, .mtx_unlock] ∧
    Event.progress_cb ∉ r.trace ∧ Event.preview_cb ∉ r.trace ∧
    r.trace.any Event.isCallback = false ∧
    r.trace.any Event.isDeviceOp = false ∧
    devAllocated r.trace = [] := by
  intro r
  have hr : r = ⟨ OPTIMIZER_ERROR_FILE_IO,
      [.mtx_lock, .fopen ip "rb" .input false, .mtx_unlock]⟩ := by
    simp only [r, optimizer_process_file, hi, hs, hopen, Bool.not_true, Bool.not_false,
      Bool.false_eq_true, if_false, if_true]
    rfl
  rw [hr]
  refine ⟨rfl, rfl, ?_, ?_, rfl, rfl, rfl⟩ <;> simp

/-- C9 at a sample input: the input file of a JPEG request cannot be opened. -/
theorem process_file_missing_input_witness :
    g_ready.initialized = true ∧
    is_format_supported g_ready (options_for OPTIMIZER_FORMAT_JPEG).output_format = true ∧
    (optimizer_process_file g_ready { file_all_ok with fopen_input_ok := false } gpu_all_ok
      (some "missing.png") (some "out.jpg") (some (options_for OPTIMIZER_FORMAT_JPEG))
      true true 0).err = OPTIMIZER_ERROR_FILE_IO :=
  ⟨rfl, by decide,
   (process_file_missing_input g_ready { file_all_ok with fopen_input_ok := false } gpu_all_ok
      "missing.png" "out.jpg" (options_for OPTIMIZER_FORMAT_JPEG) true true 0 rfl (by decide)
      rfl).1⟩

/-! ## C10: out-of-range codes in `optimizer_error_string` -/

/-- Codes strictly above 0, and codes below -7 other than the most negative
`int`, get the fallback message. -/
theorem optimizer_error_string_fallback (error : Int)
    (h : 0 < error ∨ (-2147483648 < error ∧ error < -7)) :
    optimizer_error_string error = some "Unknown error" := by
  unfold optimizer_error_string
  rw [if_pos]
  rcases h with h | h
  · exact Or.inl (le_of_lt h)
  · right
    have hl : (error_messages.length : Int) = 7 := rfl
    rw [hl]
    unfold neg_int32
    omega

/-- C10, the code at the failing inputs: for the reserved code
`OPTIMIZER_ERROR_SYSTEM` (-7), which has no entry in the 7-entry table, the
guard `-error > 7` is false and `optimizer_error_string` reads
`error_messages[7]`, one slot past the end of the table, instead of returning
the fallback; for the most negative `int` the wrapped negation is negative and
the read lands before the table. -/
theorem optimizer_error_string_reads_outside_table :
    error_messages.length = 7 ∧
    OPTIMIZER_ERROR_SYSTEM < OPTIMIZER_ERROR_THREAD ∧
    neg_int32 OPTIMIZER_ERROR_SYSTEM = 7 ∧
    index_int error_messages 7 = none ∧
    optimizer_error_string OPTIMIZER_ERROR_SYSTEM = none ∧
    optimizer_error_string OPTIMIZER_ERROR_SYSTEM ≠ some "Unknown error" ∧
    neg_int32 (-2147483648) = -2147483648 ∧
    optimizer_error_string (-2147483648) = none := by
  refine ⟨rfl, by decide, by decide, by decide, by decide, by decide, by decide, by decide⟩

/-! ## C11: the copy returned by `optimizer_get_supported_formats` -/

/-- Stores through a block pointer leave `g_state` as it is. -/
theorem stores_block_g (id : Nat) (ws : List (Nat × optimizer_format_t)) (m : Memory) :
    (m.stores (.block id) ws).g = m.g := by
  induction ws generalizing m with
  | nil => rfl
  | cons w ws ih =>
    obtain ⟨i, v⟩ := w
    simp only [Memory.stores]
    rw [ih]
    rfl

/-- Stores through a block pointer allocate nothing. -/
theorem stores_block_heap_length (id : Nat) (ws : List (Nat × optimizer_format_t))
    (m : Memory) : (m.stores (.block id) ws).heap.length = m.heap.length := by
  induction ws generalizing m with
  | nil => rfl
  | cons w ws ih =>
    obtain ⟨i, v⟩ := w
    simp only [Memory.stores]
    rw [ih]
    simp [Memory.store]

/-- A store through the address of the static array does change the registry:
overwriting slot 0 with HEIC makes JPEG unsupported and HEIC supported. -/
theorem store_registry_changes_registry :
    is_format_supported
      ((Memory.mk g_ready []).store .registry 0 OPTIMIZER_FORMAT_HEIC).g
      OPTIMIZER_FORMAT_JPEG = false ∧
    is_format_supported
      ((Memory.mk g_ready []).store .registry 0 OPTIMIZER_FORMAT_HEIC).g
      OPTIMIZER_FORMAT_HEIC = true := by
  refine ⟨by decide, by decide⟩

/-- In a reachable initialized state, with non-null out-pointers and a
succeeding `malloc`, the accessor returns SUCCESS, the count 4 and the address
of a new heap block holding JPEG, PNG, WEBP, AVIF, and changes nothing else. -/
theorem get_supported_formats_success (m : Memory) (hg : Reachable m.g)
    (hi : m.g.initialized = true) (env : FormatsEnv) (hm : env.malloc_ok = true)
    (p : Option FormatPtr) (c : Nat) :
    optimizer_get_supported_formats m env (some p) (some c) =
      { err := OPTIMIZER_SUCCESS,
        formats := some (some (.block m.heap.length)),
        count := some 4,
        mem := { m with heap := m.heap ++ [[OPTIMIZER_FORMAT_JPEG, OPTIMIZER_FORMAT_PNG,
          OPTIMIZER_FORMAT_WEBP, OPTIMIZER_FORMAT_AVIF]] },
        trace := [.malloc .formats 16 true, .memcpy .formats 16] } := by
  obtain ⟨ha, hn⟩ := (reachable_formats m.g hg).2 hi
  simp only [optimizer_get_supported_formats, hi, hm, ha, hn, Bool.not_true,
    Bool.false_eq_true, if_false]
  rfl

/-- C11 as amended: in a reachable initialized state, with non-null
out-pointers, `optimizer_get_supported_formats` returns MEMORY, stores `NULL`
in `*formats` and changes nothing when its `malloc` fails. When its `malloc`
succeeds it returns SUCCESS, the count 4 and the address of a heap block that
was not live before the call and now holds JPEG, PNG, WEBP, AVIF in that order;
`g_state` and the blocks live before the call are unchanged. Whatever stores
`writes` the caller then makes through the returned pointer, `g_state` stays
unchanged, and a later call whose `malloc` succeeds returns SUCCESS, the count
4 and another new block holding the same four formats. -/
theorem get_supported_formats_returns_copy (m : Memory) (hg : Reachable m.g)
    (hi : m.g.initialized = true) (env1 env2 : FormatsEnv)
    (p0 q0 : Option FormatPtr) (c0 c1 : Nat)
    (writes : List (Nat × optimizer_format_t)) :
    (env1.malloc_ok = false →
      optimizer_get_supported_formats m env1 (some p0) (some c0) =
        { err := OPTIMIZER_ERROR_MEMORY, formats := some none, count := some c0, mem := m,
          trace := [.malloc .formats 16 false] }) ∧
    (env1.malloc_ok = true →
      (optimizer_get_supported_formats m env1 (some p0) (some c0)).err
        = OPTIMIZER_SUCCESS ∧
      (optimizer_get_supported_formats m env1 (some p0) (some c0)).count = some 4 ∧
      (optimizer_get_supported_formats m env1 (some p0) (some c0)).formats
        = some (some (.block m.heap.length)) ∧
      (optimizer_get_supported_formats m env1 (some p0) (some c0)).trace
        = [.malloc .formats 16 true, .memcpy .formats 16] ∧
      m.load (.block m.heap.length) = none ∧
      (optimizer_get_supported_formats m env1 (some p0) (some c0)).mem.load
          (.block m.heap.length)
        = some [OPTIMIZER_FORMAT_JPEG, OPTIMIZER_FORMAT_PNG, OPTIMIZER_FORMAT_WEBP,
            OPTIMIZER_FORMAT_AVIF] ∧
      (optimizer_get_supported_formats m env1 (some p0) (some c0)).mem.g = m.g ∧
      (∀ id, id < m.heap.length →
        (optimizer_get_supported_formats m env1 (some p0) (some c0)).mem.load (.block id)
          = m.load (.block id)) ∧
      (((optimizer_get_supported_formats m env1 (some p0) (some c0)).mem.stores
          (.block m.heap.length) writes).g = m.g) ∧
      (env2.malloc_ok = true →
        (optimizer_get_supported_formats
          ((optimizer_get_supported_formats m env1 (some p0) (some c0)).mem.stores
            (.block m.heap.length) writes) env2 (some q0) (some c1)).err
          = OPTIMIZER_SUCCESS ∧
        (optimizer_get_supported_formats
          ((optimizer_get_supported_formats m env1 (some p0) (some c0)).mem.stores
            (.block m.heap.length) writes) env2 (some q0) (some c1)).count = some 4 ∧
        (optimizer_get_supported_formats
          ((optimizer_get_supported_formats m env1 (some p0) (some c0)).mem.stores
            (.block m.heap.length) writes) env2 (some q0) (some c1)).formats
          = some (some (.block (m.heap.length + 1))) ∧
        (optimizer_get_supported_formats
          ((optimizer_get_supported_formats m env1 (some p0) (some c0)).mem.stores
            (.block m.heap.length) writes) env2 (some q0) (some c1)).mem.load
            (.block (m.heap.length + 1))
          = some [OPTIMIZER_FORMAT_JPEG, OPTIMIZER_FORMAT_PNG, OPTIMIZER_FORMAT_WEBP,
              OPTIMIZER_FORMAT_AVIF])) := by
  obtain ⟨ha, hn⟩ := (reachable_formats m.g hg).2 hi
  refine ⟨?_, ?_⟩
  · intro hm
    simp only [optimizer_get_supported_formats, hi, hm, hn, Bool.not_false, if_true]
    rfl
  · intro hm
    rw [get_supported_formats_success m hg hi env1 hm p0 c0]
    refine ⟨rfl, rfl, rfl, rfl, ?_, ?_, rfl, ?_, ?_, ?_⟩
    · simp [Memory.load]
    · simp [Memory.load]
    · intro id hid
      simp [Memory.load, List.getElem?_append_left hid]
    · rw [stores_block_g]
    · intro hm2
      generalize hm2def : (Memory.stores { m with heap := m.heap ++
        [[OPTIMIZER_FORMAT_JPEG, OPTIMIZER_FORMAT_PNG, OPTIMIZER_FORMAT_WEBP,
          OPTIMIZER_FORMAT_AVIF]] } (.block m.heap.length) writes) = m2
      have hg2 : m2.g = m.g := by rw [← hm2def, stores_block_g]
      have hl2 : m2.heap.length = m.heap.length + 1 := by
        rw [← hm2def, stores_block_heap_length]
        simp
      rw [get_supported_formats_success m2 (by rw [hg2]; exact hg) (by rw [hg2]; exact hi)
        env2 hm2 q0 c1]
      refine ⟨rfl, rfl, by rw [hl2], ?_⟩
      simp [Memory.load, ← hl2]

/-- C11 at a sample input: on the state a successful init produced, the caller
overwrites two entries of the first copy with HEIC and calls again. The first
block then holds the overwritten entries, the registry still accepts JPEG, and
the second call returns a second block with the four active formats. -/
theorem get_supported_formats_returns_copy_witness :
    Reachable (Memory.mk g_ready []).g ∧ (Memory.mk g_ready []).g.initialized = true ∧
    ((optimizer_get_supported_formats (Memory.mk g_ready []) ⟨true⟩ (some none)
        (some 0)).mem.stores (.block 0)
        [(0, OPTIMIZER_FORMAT_HEIC), (3, OPTIMIZER_FORMAT_HEIC)]).load (.block 0)
      = some [OPTIMIZER_FORMAT_HEIC, OPTIMIZER_FORMAT_PNG, OPTIMIZER_FORMAT_WEBP,
          OPTIMIZER_FORMAT_HEIC] ∧
    ((optimizer_get_supported_formats (Memory.mk g_ready []) ⟨true⟩ (some none)
        (some 0)).mem.stores (.block 0)
        [(0, OPTIMIZER_FORMAT_HEIC), (3, OPTIMIZER_FORMAT_HEIC)]).g = g_ready ∧
    (optimizer_get_supported_formats
      ((optimizer_get_supported_formats (Memory.mk g_ready []) ⟨true⟩ (some none)
        (some 0)).mem.stores (.block 0)
        [(0, OPTIMIZER_FORMAT_HEIC), (3, OPTIMIZER_FORMAT_HEIC)])
      ⟨true⟩ (some (some (.block 0))) (some 4)).mem.load (.block 1)
      = some [OPTIMIZER_FORMAT_JPEG, OPTIMIZER_FORMAT_PNG, OPTIMIZER_FORMAT_WEBP,
          OPTIMIZER_FORMAT_AVIF] :=
  ⟨g_ready_reachable, rfl, by decide,
   ((get_supported_formats_returns_copy (Memory.mk g_ready []) g_ready_reachable rfl
      ⟨true⟩ ⟨true⟩ none (some (.block 0)) 0 4
      [(0, OPTIMIZER_FORMAT_HEIC), (3, OPTIMIZER_FORMAT_HEIC)]).2 rfl).2.2.2.2.2.2.2.2.1,
   (((get_supported_formats_returns_copy (Memory.mk g_ready []) g_ready_reachable rfl
      ⟨true⟩ ⟨true⟩ none (some (.block 0)) 0 4
      [(0, OPTIMIZER_FORMAT_HEIC), (3, OPTIMIZER_FORMAT_HEIC)]).2 rfl).2.2.2.2.2.2.2.2.2
      rfl).2.2.2⟩

/-- C11 fails when the allocation of the copy fails: on the state a
successful init produced, with non-null out-pointers,
`optimizer_get_supported_formats` calls `malloc`, gets `NULL` and returns
MEMORY, not SUCCESS; it hands out no array and no count and allocates no
block. -/
theorem get_supported_formats_malloc_failure :
    (Memory.mk g_ready []).g.initialized = true ∧
    (optimizer_get_supported_formats (Memory.mk g_ready []) ⟨false⟩ (some none)
      (some 0)).err = OPTIMIZER_ERROR_MEMORY ∧
    (optimizer_get_supported_formats (Memory.mk g_ready []) ⟨false⟩ (some none)
      (some 0)).err ≠ OPTIMIZER_SUCCESS ∧
    (optimizer_get_supported_formats (Memory.mk g_ready []) ⟨false⟩ (some none)
      (some 0)).formats = some none ∧
    (optimizer_get_supported_formats (Memory.mk g_ready []) ⟨false⟩ (some none)
      (some 0)).count = some 0 ∧
    (optimizer_get_supported_formats (Memory.mk g_ready []) ⟨false⟩ (some none)
      (some 0)).mem.heap = [] ∧
    (optimizer_get_supported_formats (Memory.mk g_ready []) ⟨false⟩ (some none)
      (some 0)).trace = [.malloc .formats 16 false] := by
  refine ⟨rfl, rfl, by decide, rfl, rfl, rfl, rfl⟩

/-! ## C12: the order of releases -/

/-- C12 as amended: in an `optimizer_process_file` call that passes validation
the mutex is acquired first and released last. Releases are in strict reverse
order of acquisition exactly on the early exits: in `optimizer_process_file`
when the input cannot be opened, its buffer cannot be allocated or the read is
short; in an `optimizer_process_buffer` call on an initialized library with
non-null arguments, whatever the output format, when `optimizer_gpu_allocate`,
the host-to-device copy or `optimizer_gpu_compress` fails. On every other
path some resource is released while a more recently acquired one is held. -/
theorem release_order_of_pipelines (g : GState) (fenv : FileEnv) (genv : GpuEnv)
    (ip op : String) (opts : optimizer_options_t)
    (src : HostBuf) (input_size : Nat) (out0 : Option HostBuf) (size0 : Nat)
    (progress_cb preview_cb : Bool) (user_data : Nat)
    (hi : g.initialized = true) :
    let tf := (optimizer_process_file g fenv genv (some ip) (some op) (some opts)
      progress_cb preview_cb user_data).trace
    let tb := (optimizer_process_buffer g genv (some src) input_size (some out0)
      (some size0) (some opts) progress_cb preview_cb user_data).trace
    (is_format_supported g opts.output_format = true →
      tf.head? = some .mtx_lock ∧ tf.getLast? = some .mtx_unlock ∧
      (releasedInReverse [] tf = true ↔
        (fenv.fopen_input_ok = false ∨ fenv.malloc_ok = false ∨
          fenv.fread_count ≠ fenv.ftell_size))) ∧
    (releasedInReverse [] tb = true ↔
      ¬ (genv.allocate = OPTIMIZER_SUCCESS ∧
         genv.memcpy_host_to_device = OPTIMIZER_SUCCESS ∧
         genv.compress = OPTIMIZER_SUCCESS)) := by
  intro tf tb
  have hfile : is_format_supported g opts.output_format = true →
      tf.head? = some .mtx_lock ∧ tf.getLast? = some .mtx_unlock ∧
      (releasedInReverse [] tf = true ↔
        (fenv.fopen_input_ok = false ∨ fenv.malloc_ok = false ∨
          fenv.fread_count ≠ fenv.ftell_size)) := by
    intro hs
    simp only [tf, optimizer_process_file, hi, hs, Bool.not_true, Bool.false_eq_true,
      if_false]
    generalize optimizer_process_buffer g genv (some .input) fenv.ftell_size (some none)
      (some 0) (some opts) progress_cb preview_cb user_data = rb
    obtain ⟨fo, sz, mo, fr, foo, fw⟩ := fenv
    split_ifs
    all_goals
      simp only [Bool.not_eq_true', Bool.not_eq_false, ne_eq, not_not] at *
      subst_vars
      simp [releasedInReverse, Event.releases, Event.acquires, List.getLast?_cons, *]
  have hbuf : releasedInReverse [] tb = true ↔
      ¬ (genv.allocate = OPTIMIZER_SUCCESS ∧
         genv.memcpy_host_to_device = OPTIMIZER_SUCCESS ∧
         genv.compress = OPTIMIZER_SUCCESS) := by
    simp only [tb, optimizer_process_buffer, hi, Bool.not_true, Bool.false_eq_true,
      if_false]
    obtain ⟨a, h2d, c, csz, mo, d2h⟩ := genv
    split_ifs
    all_goals
      simp only [Bool.not_eq_true', Bool.not_eq_false, ne_eq, not_not] at *
      subst_vars
      simp [releasedInReverse, Event.releases, Event.acquires, *]
  exact ⟨hfile, hbuf⟩

/-- C12 at a sample input: a short read in the file pipeline, and a failing
compression in a direct buffer call asking for HEIC; on both the releases are
in reverse order of acquisition. -/
theorem release_order_of_pipelines_witness :
    g_ready.initialized = true ∧
    releasedInReverse []
      (optimizer_process_file g_ready { file_all_ok with fread_count := 3 }
        { gpu_all_ok with compress := OPTIMIZER_ERROR_GPU }
        (some "in.png") (some "out.jpg") (some (options_for OPTIMIZER_FORMAT_JPEG))
        false false 0).trace = true ∧
    releasedInReverse []
      (optimizer_process_buffer g_ready { gpu_all_ok with compress := OPTIMIZER_ERROR_GPU }
        (some .input) 8 (some none) (some 0) (some (options_for OPTIMIZER_FORMAT_HEIC))
        false false 0).trace = true :=
  ⟨rfl,
   ((release_order_of_pipelines g_ready { file_all_ok with fread_count := 3 }
      { gpu_all_ok with compress := OPTIMIZER_ERROR_GPU }
      "in.png" "out.jpg" (options_for OPTIMIZER_FORMAT_JPEG) .input 8 none 0 false false 0
      rfl).1 (by decide)).2.2.2 (Or.inr (Or.inr (by decide))),
   (release_order_of_pipelines g_ready file_all_ok
      { gpu_all_ok with compress := OPTIMIZER_ERROR_GPU }
      "in.png" "out.heic" (options_for OPTIMIZER_FORMAT_HEIC) .input 8 none 0 false false 0
      rfl).2.2 (by decide)⟩

/-- C12 fails on the success paths: with every step succeeding, both pipelines
release a resource while a more recently acquired one is still held.
`optimizer_process_buffer` allocates the input device buffer, then the output
one, and frees them in that same order; `optimizer_process_file` closes the
input file while the later input buffer is held, and frees the output buffer
while the later output file is open. -/
theorem release_order_not_reversed :
    (optimizer_process_buffer g_ready gpu_all_ok (some .input) 8 (some none) (some 0)
      (some (options_for OPTIMIZER_FORMAT_JPEG)) false false 0).err = OPTIMIZER_SUCCESS ∧
    releasedInReverse []
      (optimizer_process_buffer g_ready gpu_all_ok (some .input) 8 (some none) (some 0)
        (some (options_for OPTIMIZER_FORMAT_JPEG)) false false 0).trace = false ∧
    devAllocated
      (optimizer_process_buffer g_ready gpu_all_ok (some .input) 8 (some none) (some 0)
        (some (options_for OPTIMIZER_FORMAT_JPEG)) false false 0).trace
          = [.input, .output] ∧
    devFreed
      (optimizer_process_buffer g_ready gpu_all_ok (some .input) 8 (some none) (some 0)
        (some (options_for OPTIMIZER_FORMAT_JPEG)) false false 0).trace
          = [.input, .output] ∧
    (optimizer_process_file g_ready file_all_ok gpu_all_ok (some "in.png") (some "out.jpg")
      (some (options_for OPTIMIZER_FORMAT_JPEG)) false false 0).err = OPTIMIZER_SUCCESS ∧
    releasedInReverse []
      (optimizer_process_file g_ready file_all_ok gpu_all_ok (some "in.png")
        (some "out.jpg") (some (options_for OPTIMIZER_FORMAT_JPEG)) false false 0).trace
          = false ∧
    (optimizer_process_file g_ready file_all_ok gpu_all_ok (some "in.png") (some "out.jpg")
      (some (options_for OPTIMIZER_FORMAT_JPEG)) false false 0).trace.filterMap
        Event.releases
          = [.file .input, .dev .input, .dev .output, .host .input, .host .output,
             .file .output, .mutex] ∧
    (optimizer_process_file g_ready file_all_ok gpu_all_ok (some "in.png") (some "out.jpg")
      (some (options_for OPTIMIZER_FORMAT_JPEG)) false false 0).trace.filterMap
        Event.acquires
          = [.mutex, .file .input, .host .input, .dev .input, .dev .output, .host .output,
             .file .output] := by
  refine ⟨rfl, by decide, by decide, by decide, rfl, by decide, by decide, by decide⟩

/-! ## C13: the stages of the buffer pipeline -/

/-- C13 as amended: a validated `optimizer_process_buffer` call first
allocates a device buffer of exactly `input_size` bytes in device memory, and
no path runs a resize or a colour-convert stage. When every step succeeds the
steps are, in order: allocate `input_size` bytes, copy `input_size` bytes from
the caller's buffer to the device, compress to `options.output_format` at
`options.quality`, free the input device buffer, `malloc` a host buffer of
exactly the size compress reported, copy that many bytes from the output
device buffer into it, free the output device buffer; the call returns SUCCESS
with that host buffer in `*output_buffer` and the size in `*output_size`. -/
theorem process_buffer_stage_chain (g : GState) (env : GpuEnv)
    (src : HostBuf) (input_size : Nat) (out0 : Option HostBuf) (size0 : Nat)
    (opts : optimizer_options_t) (progress_cb preview_cb : Bool) (user_data : Nat)
    (hi : g.initialized = true) :
    let r := optimizer_process_buffer g env (some src) input_size (some out0) (some size0)
      (some opts) progress_cb preview_cb user_data
    r.trace.head? = some (.optimizer_gpu_allocate .input input_size
      optimizer_gpu_memory_type_t.OPTIMIZER_GPU_MEMORY_DEVICE env.allocate) ∧
    Step.resize ∉ steps r.trace ∧ Step.color_convert ∉ steps r.trace ∧
    (env.allocate = OPTIMIZER_SUCCESS → env.memcpy_host_to_device = OPTIMIZER_SUCCESS →
      env.compress = OPTIMIZER_SUCCESS → env.malloc_ok = true →
      env.memcpy_device_to_host = OPTIMIZER_SUCCESS →
      r.err = OPTIMIZER_SUCCESS ∧
      r.output_buffer = some (some .output) ∧
      r.output_size = some env.compress_size ∧
      steps r.trace =
        [.allocate input_size, .upload input_size,
         .compress opts.output_format opts.quality, .release .input,
         .host_allocate env.compress_size, .download env.compress_size,
         .release .output] ∧
      Event.optimizer_gpu_memcpy_host_to_device .input src input_size OPTIMIZER_SUCCESS
        ∈ r.trace ∧
      Event.malloc .output env.compress_size true ∈ r.trace ∧
      Event.optimizer_gpu_memcpy_device_to_host .output .output env.compress_size
        OPTIMIZER_SUCCESS ∈ r.trace) := by
  intro r
  simp only [r, optimizer_process_buffer, hi, Bool.not_true, Bool.false_eq_true, if_false]
  obtain ⟨a, h2d, c, csz, mo, d2h⟩ := env
  split_ifs
  all_goals
    simp only [Bool.not_eq_true', Bool.not_eq_false, ne_eq, not_not] at *
    subst_vars
    simp [steps, Event.step, *]

/-- C13 at a sample input: every step succeeds on an 8-byte input. -/
theorem process_buffer_stage_chain_witness :
    g_ready.initialized = true ∧
    steps (optimizer_process_buffer g_ready gpu_all_ok (some .input) 8 (some none) (some 0)
      (some (options_for OPTIMIZER_FORMAT_WEBP)) false false 0).trace =
      [.allocate 8, .upload 8, .compress OPTIMIZER_FORMAT_WEBP 80, .release .input,
       .host_allocate 5, .download 5, .release .output] :=
  ⟨rfl,
   ((process_buffer_stage_chain g_ready gpu_all_ok .input 8 none 0
      (options_for OPTIMIZER_FORMAT_WEBP) false false 0 rfl).2.2.2 rfl rfl rfl rfl rfl).2.2.2.1⟩

/-- C13 fails on the resize and colour-convert stages: for a 36000000-byte
input and options asking for at most 640 by 480 pixels, with every step
succeeding, the call returns SUCCESS and the only stage between the two copies
is the compression; no resize and no colour-convert call is made. The pipeline
never learns the dimensions or the colourspace of the image. -/
theorem process_buffer_never_resizes_or_converts :
    (options_for OPTIMIZER_FORMAT_PNG).max_width = 640 ∧
    (options_for OPTIMIZER_FORMAT_PNG).max_height = 480 ∧
    (optimizer_process_buffer g_ready gpu_all_ok (some .input) 36000000 (some none) (some 0)
      (some (options_for OPTIMIZER_FORMAT_PNG)) false false 0).err = OPTIMIZER_SUCCESS ∧
    steps (optimizer_process_buffer g_ready gpu_all_ok (some .input) 36000000 (some none)
      (some 0) (some (options_for OPTIMIZER_FORMAT_PNG)) false false 0).trace =
      [.allocate 36000000, .upload 36000000, .compress OPTIMIZER_FORMAT_PNG 80,
       .release .input, .host_allocate 5, .download 5, .release .output] ∧
    Step.resize ∉ steps (optimizer_process_buffer g_ready gpu_all_ok (some .input) 36000000
      (some none) (some 0) (some (options_for OPTIMIZER_FORMAT_PNG)) false false 0).trace ∧
    Step.color_convert ∉ steps (optimizer_process_buffer g_ready gpu_all_ok (some .input)
      36000000 (some none) (some 0) (some (options_for OPTIMIZER_FORMAT_PNG))
      false false 0).trace := by
  refine ⟨rfl, rfl, rfl, by decide, by decide, by decide⟩

/-! ## C14: the messages of the codes in the table -/

/-- C14, the code at the failing input: for OPTIMIZER_SUCCESS (0) the guard
`error >= 0` holds, so `optimizer_error_string` returns the fallback message
and never reads the table entry 0, which is "Success". The six negative codes
-1 to -6 get their table entries. -/
theorem optimizer_error_string_success_gets_fallback :
    optimizer_error_string OPTIMIZER_SUCCESS = some "Unknown error" ∧
    optimizer_error_string OPTIMIZER_SUCCESS ≠ some "Success" ∧
    index_int error_messages (neg_int32 OPTIMIZER_SUCCESS) = some "Success" ∧
    optimizer_error_string OPTIMIZER_ERROR_INVALID_PARAM = some "Invalid parameter" ∧
    optimizer_error_string OPTIMIZER_ERROR_FILE_IO = some "File I/O error" ∧
    optimizer_error_string OPTIMIZER_ERROR_MEMORY = some "Memory allocation error" ∧
    optimizer_error_string OPTIMIZER_ERROR_UNSUPPORTED_FORMAT = some "Unsupported format" ∧
    optimizer_error_string OPTIMIZER_ERROR_GPU = some "GPU error" ∧
    optimizer_error_string OPTIMIZER_ERROR_THREAD = some "Thread error" := by
  refine ⟨by decide, by decide, by decide, by decide, by decide, by decide, by decide,
    by decide, by decide⟩

end Optimizer
